import Mathlib

/-!
Verification development for the BasedPlayblast Blender add-on
(`__init__.py` and `updater/__init__.py`).

The add-on is a script against the host's dynamic object graph, so the
shallow embedding models host objects in two complementary ways, matching
how the source itself accesses them:

* properties the source reads and writes as plain attributes
  (`scene.render.filepath`, `scene.frame_start`, ...) become typed fields of
  Lean structures;
* property groups the source accesses almost exclusively through
  `getattr`/`hasattr`/`safe_getattr`/`safe_restore` (`scene.cycles`,
  `scene.eevee`, optional render attributes, ...) become attribute maps
  `List (String × SVal)`, which is faithful to the dynamic-attribute
  access pattern used there.

The ad hoc settings snapshots (`props.original_settings`, the JSON string)
are modelled structurally as the association list the source serialises:
`json.dumps`/`json.loads` round-trip a dict tree, so the string step is
dropped and the empty string becomes `Option.none`.

Machine integers of the host are unbounded Python ints, so `Int` is exact.
Float-valued host properties are modelled as `Rat`; no claim depends on
float rounding.
-/

namespace BasedPlayblast

/-- A JSON-serialisable Python value as produced by `make_json_serializable`
in `__init__.py`: strings, ints, floats (as `Rat`), bools, lists and dicts. -/
inductive SVal where
  | s (v : String)
  | i (v : Int)
  | b (v : Bool)
  | r (v : Rat)
  | arr (l : List SVal)
  | obj (l : List (String × SVal))

/-- An attribute map: the dynamic attribute dictionary of a host object. -/
abbrev Attrs := List (String × SVal)

/-- `getattr(obj, attr, default)` wrapped in a broad `except` —
`safe_getattr` from `__init__.py`. -/
def safe_getattr (m : Attrs) (k : String) (d : SVal) : SVal :=
  (m.lookup k).getD d

/-- `hasattr(obj, attr)` on an attribute map. -/
def hasAttr (m : Attrs) (k : String) : Bool :=
  (m.lookup k).isSome

/-- `setattr(obj, attr, value)` on an attribute map (replaces an existing
binding, otherwise appends). -/
def setAttr (m : Attrs) (k : String) (v : SVal) : Attrs :=
  if hasAttr m k then m.map (fun p => if p.1 == k then (k, v) else p)
  else m ++ [(k, v)]

/-- `safe_restore(obj, attr, value)` from the restore operators: assign only
when the attribute exists, swallowing errors. -/
def safe_restore (m : Attrs) (k : String) (v : SVal) : Attrs :=
  if hasAttr m k then setAttr m k v else m

/-- Python truthiness of a dict value as used by guards such as
`if 'cycles' in original and original['cycles']:`. -/
def SVal.truthy : SVal → Bool
  | .s v => v ≠ ""
  | .i v => v ≠ 0
  | .b v => v
  | .r v => v ≠ 0
  | .arr l => !l.isEmpty
  | .obj l => !l.isEmpty

/-- Read an `SVal` back as a string (JSON round-trip of a string-typed host
property); the fallback is returned for a foreign-typed value. -/
def SVal.asStr (v : SVal) (d : String) : String :=
  match v with | .s x => x | _ => d

/-- Read an `SVal` back as an int. -/
def SVal.asInt (v : SVal) (d : Int) : Int :=
  match v with | .i x => x | _ => d

/-- Read an `SVal` back as a bool. -/
def SVal.asBool (v : SVal) (d : Bool) : Bool :=
  match v with | .b x => x | _ => d

/-- Read an `SVal` back as a float (`Rat`). -/
def SVal.asRat (v : SVal) (d : Rat) : Rat :=
  match v with | .r x => x | _ => d

/-- Read an `SVal` back as a list of floats (stamp colours). -/
def SVal.asRatList (v : SVal) (d : List Rat) : List Rat :=
  match v with
  | .arr l => l.map (fun x => x.asRat 0)
  | _ => d

/-- Read an `SVal` back as a nested dict. -/
def SVal.asObj (v : SVal) (d : Attrs) : Attrs :=
  match v with | .obj l => l | _ => d

/-- Operator return statuses used by the add-on's operators. -/
inductive OpStatus where
  | FINISHED
  | CANCELLED
  | RUNNING_MODAL
  | PASS_THROUGH
deriving DecidableEq, Repr

/-- A `self.report(...)` call: severity level and message. -/
structure Report where
  level : String
  message : String
deriving DecidableEq, Repr

/-- `scene.render.image_settings` — the fields the source accesses as plain
attributes, plus an attribute map for the ones it only touches through
`safe_getattr`/`safe_restore` (`exr_codec`, `use_zbuffer`, `jpeg2k_codec`,
`tiff_codec`). -/
structure ImageSettings where
  file_format : String
  color_mode : String
  color_depth : String
  compression : Int
  quality : Int
  use_preview : Bool
  extra : Attrs

/-- `scene.render.ffmpeg` — plain-attribute fields plus an attribute map for
the `safe_getattr` attributes (`use_max_b_frames`, `max_b_frames`,
`use_autosplit`, `autosplit_size`). -/
structure FfmpegSettings where
  format : String
  codec : String
  video_bitrate : Int
  minrate : Int
  maxrate : Int
  buffersize : Int
  muxrate : Int
  packetsize : Int
  constant_rate_factor : String
  gopsize : Int
  audio_codec : String
  audio_bitrate : Int
  audio_channels : Int
  audio_mixrate : Int
  audio_volume : Rat
  extra : Attrs

/-- `scene.render` — every attribute the add-on reads or writes as a plain
attribute, plus `extra` for the attributes it only reaches via
`safe_getattr`/`safe_restore`/`hasattr` (tile sizes, rolling shutter, hair
settings, `preview_pixel_size`, ...). -/
structure RenderSettings where
  engine : String
  filepath : String
  resolution_x : Int
  resolution_y : Int
  resolution_percentage : Int
  pixel_aspect_x : Rat
  pixel_aspect_y : Rat
  use_file_extension : Bool
  use_overwrite : Bool
  use_placeholder : Bool
  film_transparent : Bool
  filter_size : Rat
  use_persistent_data : Bool
  use_simplify : Bool
  simplify_subdivision : Int
  simplify_child_particles : Rat
  simplify_volumes : Rat
  use_motion_blur : Bool
  motion_blur_shutter : Rat
  threads_mode : String
  threads : Int
  use_compositing : Bool
  use_sequencer : Bool
  use_border : Bool
  border_min_x : Rat
  border_max_x : Rat
  border_min_y : Rat
  border_max_y : Rat
  use_crop_to_border : Bool
  use_stamp : Bool
  use_stamp_date : Bool
  use_stamp_time : Bool
  use_stamp_frame : Bool
  use_stamp_camera : Bool
  use_stamp_lens : Bool
  use_stamp_scene : Bool
  use_stamp_note : Bool
  stamp_note_text : String
  use_stamp_marker : Bool
  use_stamp_filename : Bool
  use_stamp_render_time : Bool
  use_stamp_memory : Bool
  use_stamp_hostname : Bool
  stamp_font_size : Int
  stamp_foreground : List Rat
  stamp_background : List Rat
  fps : Int
  fps_base : Rat
  image_settings : ImageSettings
  ffmpeg : FfmpegSettings
  extra : Attrs

/-- `scene.display.shading` (Workbench): the three attributes the source
reads directly, plus the `safe_getattr` attributes. -/
structure DisplayShading where
  type : String
  light : String
  color_type : String
  extra : Attrs

/-- `scene.display`, with `render_aa` among the `extra` attributes. -/
structure SceneDisplay where
  shading : DisplayShading
  extra : Attrs

/-- The host scene: the object graph the operators read and write.
`cycles` and `eevee` are attribute maps because the source accesses them
through `getattr`/`safe_getattr`/`hasattr`; `eevee` is optional because the
source probes `hasattr(scene, 'eevee')`. The camera and world are
identified by name. -/
structure Scene where
  render : RenderSettings
  frame_start : Int
  frame_end : Int
  frame_step : Int
  frame_current : Int
  camera : Option String
  world : Option String
  use_nodes : Bool
  cycles : Attrs
  eevee : Option Attrs
  display : SceneDisplay

/-- `context.preferences.view` — only `render_display_type` is used. -/
structure Prefs where
  render_display_type : String

/-- The `BPLProperties` property group (the UI-bound settings record).
`original_settings` holds the JSON snapshot dict; the empty string of the
source is `none`. -/
structure BPLProps where
  output_path : String
  file_name : String
  last_playblast_file : String
  camera_object : String
  use_active_camera : Bool
  resolution_mode : String
  resolution_preset : String
  resolution_x : Int
  resolution_y : Int
  resolution_percentage : Int
  use_scene_frame_range : Bool
  start_frame : Int
  end_frame : Int
  video_format : String
  video_codec : String
  video_quality : String
  include_audio : Bool
  audio_codec : String
  audio_bitrate : Int
  display_mode : String
  auto_disable_overlays : Bool
  enable_depth_of_field : Bool
  show_metadata : Bool
  metadata_resolution : Bool
  metadata_frame : Bool
  metadata_scene : Bool
  metadata_camera : Bool
  metadata_lens : Bool
  metadata_date : Bool
  metadata_note : String
  use_custom_ffmpeg_args : Bool
  custom_ffmpeg_args : String
  is_rendering : Bool
  status_message : String
  original_settings : Option Attrs
  original_settings_extended : String

/-- `get_file_extension` from `__init__.py`. -/
def get_file_extension (video_format : String) : String :=
  if video_format = "MPEG4" then ".mp4"
  else if video_format = "QUICKTIME" then ".mov"
  else if video_format = "AVI" then ".avi"
  else if video_format = "MKV" then ".mkv"
  else ".mp4"

/-- `get_ffmpeg_quality` from `__init__.py`. -/
def get_ffmpeg_quality (quality_enum : String) : String :=
  (([("LOWEST", "HIGH"), ("VERYLOW", "HIGH"), ("LOW", "MEDIUM"),
     ("MEDIUM", "MEDIUM"), ("HIGH", "LOW"),
     ("PERC_LOSSLESS", "PERC_LOSSLESS"),
     ("LOSSLESS", "LOSSLESS")] : List (String × String)).lookup
    quality_enum).getD "MEDIUM"

/-! ### Python string primitives

The add-on leans on a handful of `str` methods and on `int()`. They are
modelled over `List Char` with structural recursion so that every proof can
evaluate them. -/

/-- `str.split(sep)` for a one-character separator: Python semantics, so the
empty string yields `[[]]` and separators at the ends yield empty pieces. -/
def splitOnChar (c : Char) : List Char → List (List Char)
  | [] => [[]]
  | x :: xs =>
    if x = c then [] :: splitOnChar c xs
    else
      match splitOnChar c xs with
      | [] => [[x]]
      | h :: t => (x :: h) :: t

/-- Digit run of a Python int literal after its first character: decimal
digits with single underscores allowed between digits. -/
def pyDigitsTail : List Char → Bool
  | [] => true
  | '_' :: c :: r => c.isDigit && pyDigitsTail r
  | c :: r => c.isDigit && pyDigitsTail r

/-- A non-empty digit run (no leading underscore). -/
def pyDigits : List Char → Bool
  | [] => false
  | c :: r => c.isDigit && pyDigitsTail r

/-- Numeric value of a digit run, skipping underscores. -/
def digitsToNat (l : List Char) : Nat :=
  (l.filter (fun c => c ≠ '_')).foldl (fun a c => 10 * a + (c.toNat - '0'.toNat)) 0

/-- Python `int(str)` on a character list: optional surrounding whitespace,
optional sign, then a decimal digit run; `none` models the `ValueError` the
source catches. -/
def pyIntChars (l : List Char) : Option Int :=
  let t := (l.dropWhile Char.isWhitespace).reverse.dropWhile Char.isWhitespace |>.reverse
  match t with
  | '+' :: r => if pyDigits r then some (digitsToNat r) else none
  | '-' :: r => if pyDigits r then some (-(digitsToNat r : Int)) else none
  | r => if pyDigits r then some (digitsToNat r) else none

/-- Python `int(str)` on a string. -/
def pyInt (s : String) : Option Int :=
  pyIntChars s.toList

/-- `os.path.join(a, b)` for a relative `b` on a POSIX separator. -/
def pathJoin (a b : String) : String :=
  if a = "" ∨ a.toList.getLast? = some '/' then a ++ b else a ++ "/" ++ b

/-- `os.path.splitext(s)[0]` for a name without directory separators: drop
the part from the last dot on, unless the name is only a run of leading
dots. -/
def splitextRoot (s : String) : String :=
  match s.toList.reverse.findIdx? (· = '.') with
  | none => s
  | some k =>
    let i := s.toList.length - 1 - k
    if (s.toList.take i).all (· = '.') then s
    else String.mk (s.toList.take i)

/-- `str.rstrip('_')`. -/
def rstripUnderscore (s : String) : String :=
  String.mk (s.toList.reverse.dropWhile (· = '_')).reverse

/-- `str.lstrip('v')`: strips every leading `'v'`. -/
def lstripV (s : String) : String :=
  String.mk (s.toList.dropWhile (· = 'v'))

/-! ### Resolution selection (claim C8)

`BPL_OT_create_playblast.invoke` lines 846-858 and
`BPL_OT_apply_blast_settings.execute` lines 2621-2632 contain the same
resolution block; it is embedded once below. -/

/-- `RESOLUTION_PRESET_ITEMS` from `__init__.py` (identifier, label). -/
def RESOLUTION_PRESET_ITEMS : List (String × String) :=
  [("x1920y1080", "1920 x 1080 (16:9) HD1080p"),
   ("x1280y720", "1280 x 720 (16:9) HD720p"),
   ("x854y480", "854 x 480 (16:9) 480P"),
   ("x640y360", "640 x 360 (16:9) 360P"),
   ("x1920y1440", "1920 x 1440 (4:3)"),
   ("x1600y1200", "1600 x 1200 (4:3)"),
   ("x1280y960", "1280 x 960 (4:3)"),
   ("x1024y768", "1024 x 768 (4:3)"),
   ("x800y600", "800 x 600 (4:3)"),
   ("x640y480", "640 x 480 (4:3)"),
   ("x1024y1024", "1024 x 1024 (1:1)"),
   ("x512y512", "512 x 512 (1:1)")]

/-- The preset parsing of the resolution block:
`x_str = preset.split('y')[0].replace('x', '')`,
`y_str = preset.split('y')[1]`, then `int(..)` on both. `none` models an
`IndexError`/`ValueError` escaping the block. -/
def parsePresetResolution (preset : String) : Option (Int × Int) := do
  let parts := splitOnChar 'y' preset.toList
  let x_str := (← parts[0]?).filter (fun c => c ≠ 'x')
  let y_str ← parts[1]?
  let x ← pyIntChars x_str
  let y ← pyIntChars y_str
  pure (x, y)

/-- The resolution block itself: branch on `props.resolution_mode`, then
always overwrite `resolution_percentage`. `none` models an exception from
preset parsing propagating out of the block. -/
def applyResolutionSettings (props : BPLProps) (render : RenderSettings) :
    Option RenderSettings :=
  if props.resolution_mode = "PRESET" then
    match parsePresetResolution props.resolution_preset with
    | some (x, y) =>
      some { render with resolution_x := x, resolution_y := y,
                         resolution_percentage := props.resolution_percentage }
    | none => none
  else if props.resolution_mode = "CUSTOM" then
    some { render with resolution_x := props.resolution_x,
                       resolution_y := props.resolution_y,
                       resolution_percentage := props.resolution_percentage }
  else
    some { render with resolution_percentage := props.resolution_percentage }

/-- The resolution table as claim C8 reads it: each identifier
`x{W}y{H}` stands for exactly W by H. -/
def specPresetDims : List (String × Int × Int) :=
  [("x1920y1080", 1920, 1080), ("x1280y720", 1280, 720),
   ("x854y480", 854, 480), ("x640y360", 640, 360),
   ("x1920y1440", 1920, 1440), ("x1600y1200", 1600, 1200),
   ("x1280y960", 1280, 960), ("x1024y768", 1024, 768),
   ("x800y600", 800, 600), ("x640y480", 640, 480),
   ("x1024y1024", 1024, 1024), ("x512y512", 512, 512)]

/-- The resolution behaviour as the spec states it: `PRESET` uses the
W times H of the identifier, `CUSTOM` uses the add-on properties, `SCENE`
leaves `resolution_x`/`resolution_y` unchanged; `resolution_percentage` is
overwritten in every mode. -/
def applyResolutionSpec (props : BPLProps) (render : RenderSettings) :
    Option RenderSettings :=
  if props.resolution_mode = "PRESET" then
    (specPresetDims.lookup props.resolution_preset).map fun d =>
      { render with resolution_x := d.1, resolution_y := d.2,
                    resolution_percentage := props.resolution_percentage }
  else if props.resolution_mode = "CUSTOM" then
    some { render with resolution_x := props.resolution_x,
                       resolution_y := props.resolution_y,
                       resolution_percentage := props.resolution_percentage }
  else
    some { render with resolution_percentage := props.resolution_percentage }

/-! ### Frame-to-video conversion (claim C9) -/

/-- The FFmpeg command list built by
`BPL_OT_create_playblast.convert_frames_to_video` (lines 1110-1153).
`bpy.path.abspath` is modelled as the identity (paths are taken already
absolute) and the host's float formatting of the framerate is abstracted by
`toString` on `Rat`; neither affects any claim. -/
def convert_frames_to_video_cmd (props : BPLProps) (render : RenderSettings)
    (frameStart frameEnd : Int) : List String :=
  let output_dir := props.output_path
  let frame_output_dir := pathJoin output_dir "frames"
  let file_name0 := props.file_name
  let file_name1 :=
    if file_name0.contains '.' then splitextRoot file_name0 else file_name0
  let file_name :=
    rstripUnderscore file_name1 ++
      ("_" ++ toString frameStart ++ "-" ++ toString frameEnd)
  let video_ext := get_file_extension props.video_format
  let video_output := pathJoin output_dir (file_name ++ video_ext)
  let frame_pattern := pathJoin frame_output_dir (file_name ++ "_%04d.png")
  let framerate : Rat := render.fps / render.fps_base
  ["ffmpeg", "-y", "-framerate", toString framerate, "-i", frame_pattern,
   "-c:v", "libx264", "-pix_fmt", "yuv420p", "-crf", "18", video_output]

/-! ### The comprehensive settings snapshot (claims C1, C2, C6)

`BPL_OT_apply_blast_settings.execute` lines 1708-2001 build the snapshot
dict; `BPL_OT_restore_original_settings.execute` lines 2711-3097 consume
it. -/

/-- Python `str(v)` on the scalar values the save wraps. -/
def pyStr (v : SVal) : String :=
  match v with
  | .s x => x
  | .i n => toString n
  | .b x => if x then "True" else "False"
  | .r q => toString q
  | .arr _ => ""
  | .obj _ => ""

/-- Outcome of the three broad `try`/`except` sections of the comprehensive
save: whether the Cycles, EEVEE and Workbench sections raised (each
exception sets the corresponding sub-dict to `{}`). -/
structure SaveEnv where
  cyclesRaises : Bool
  eeveeRaises : Bool
  workbenchRaises : Bool

/-- The `(attribute, default)` pairs of the Cycles section of the save
(lines 1841-1893); every entry is `safe_getattr(cycles, key, default)`. -/
def cyclesSaveDefaults : List (String × SVal) :=
  [("device", .s "CPU"), ("feature_set", .s "SUPPORTED"),
   ("shading_system", .s "SVM"), ("samples", .i 128),
   ("preview_samples", .i 32), ("aa_samples", .i 4),
   ("preview_aa_samples", .i 4), ("use_denoising", .b true),
   ("denoiser", .s "OPENIMAGEDENOISE"),
   ("denoising_input_passes", .s "RGB_ALBEDO_NORMAL"),
   ("use_denoising_input_passes", .b true),
   ("denoising_prefilter", .s "ACCURATE"),
   ("use_adaptive_sampling", .b true), ("adaptive_threshold", .r 0.01),
   ("adaptive_min_samples", .i 0), ("time_limit", .r 0),
   ("use_preview_adaptive_sampling", .b false),
   ("preview_adaptive_threshold", .r 0.1),
   ("preview_adaptive_min_samples", .i 0), ("seed", .i 0),
   ("use_animated_seed", .b false), ("sample_clamp_direct", .r 0),
   ("sample_clamp_indirect", .r 0), ("light_sampling_threshold", .r 0.01),
   ("sample_all_lights_direct", .b true),
   ("sample_all_lights_indirect", .b true), ("max_bounces", .i 12),
   ("diffuse_bounces", .i 4), ("glossy_bounces", .i 4),
   ("transmission_bounces", .i 12), ("volume_bounces", .i 0),
   ("transparent_max_bounces", .i 8), ("caustics_reflective", .b true),
   ("caustics_refractive", .b true), ("filter_type", .s "GAUSSIAN"),
   ("filter_width", .r 1.5), ("pixel_filter_width", .r 1.5),
   ("use_persistent_data", .b false), ("debug_use_spatial_splits", .b false),
   ("debug_use_hair_bvh", .b true), ("debug_bvh_type", .s "DYNAMIC_BVH"),
   ("debug_use_compact_bvh", .b true), ("tile_size", .i 256),
   ("use_auto_tile", .b false), ("progressive", .s "PATH"),
   ("use_square_samples", .b false), ("blur_glossy", .r 0),
   ("use_transparent_shadows", .b true), ("volume_step_rate", .r 1),
   ("volume_preview_step_rate", .r 1), ("volume_max_steps", .i 1024)]

/-- The `(attribute, default)` pairs of the EEVEE section of the save
(lines 1905-1956); every entry is `safe_getattr(eevee, key, default)`. -/
def eeveeSaveDefaults : List (String × SVal) :=
  [("taa_render_samples", .i 64), ("taa_samples", .i 16),
   ("use_bloom", .b false), ("bloom_threshold", .r 0.8),
   ("bloom_knee", .r 0.5), ("bloom_radius", .r 6.5),
   ("bloom_intensity", .r 0.05), ("use_ssr", .b false),
   ("use_ssr_refraction", .b false), ("ssr_max_roughness", .r 0.5),
   ("ssr_thickness", .r 0.2), ("ssr_border_fade", .r 0.075),
   ("ssr_firefly_fac", .r 10), ("use_motion_blur", .b false),
   ("motion_blur_samples", .i 8), ("motion_blur_shutter", .r 0.5),
   ("use_volumetric_lights", .b false), ("volumetric_start", .r 0.1),
   ("volumetric_end", .r 100), ("volumetric_tile_size", .s "8"),
   ("volumetric_samples", .i 64),
   ("volumetric_sample_distribution", .r 0.8),
   ("use_volumetric_shadows", .b false),
   ("volumetric_shadow_samples", .i 16), ("gi_diffuse_bounces", .i 3),
   ("gi_cubemap_resolution", .s "512"),
   ("gi_visibility_resolution", .s "16"),
   ("gi_irradiance_smoothing", .r 0.1), ("gi_glossy_clamp", .r 0),
   ("gi_filter_quality", .r 1), ("use_persistent_data", .b false),
   ("shadow_cube_size", .s "512"), ("shadow_cascade_size", .s "1024"),
   ("use_shadow_high_bitdepth", .b false), ("use_soft_shadows", .b true),
   ("use_shadows", .b true), ("light_threshold", .r 0.01),
   ("use_gtao", .b false), ("gtao_distance", .r 0.2),
   ("gtao_factor", .r 1), ("gtao_quality", .r 0.25),
   ("use_overscan", .b false), ("overscan_size", .r 3),
   ("shadow_ray_count", .i 1), ("shadow_step_count", .i 6),
   ("fast_gi_method", .s "GLOBAL_ILLUMINATION"),
   ("fast_gi_ray_count", .i 4), ("fast_gi_step_count", .i 4),
   ("fast_gi_quality", .r 0.25), ("fast_gi_distance", .r 10)]

/-- The Workbench section of the save (lines 1966-1991): the three direct
reads of `scene.display.shading` followed by the `safe_getattr` entries
(`render_aa` reads `scene.display`, the rest read `scene.display.shading`). -/
def workbenchSaveList (d : SceneDisplay) : Attrs :=
  [("shading_type", .s d.shading.type),
   ("light", .s d.shading.light),
   ("color_type", .s d.shading.color_type),
   ("single_color",
     safe_getattr d.shading.extra "single_color" (.arr [.r 0.8, .r 0.8, .r 0.8])),
   ("background_type", safe_getattr d.shading.extra "background_type" (.s "THEME")),
   ("background_color",
     safe_getattr d.shading.extra "background_color" (.arr [.r 0.05, .r 0.05, .r 0.05])),
   ("cavity_ridge_factor", safe_getattr d.shading.extra "cavity_ridge_factor" (.r 1)),
   ("cavity_valley_factor", safe_getattr d.shading.extra "cavity_valley_factor" (.r 1)),
   ("curvature_ridge_factor", safe_getattr d.shading.extra "curvature_ridge_factor" (.r 1)),
   ("curvature_valley_factor", safe_getattr d.shading.extra "curvature_valley_factor" (.r 1)),
   ("render_aa", safe_getattr d.extra "render_aa" (.s "FXAA")),
   ("show_cavity", safe_getattr d.shading.extra "show_cavity" (.b false)),
   ("show_object_outline", safe_getattr d.shading.extra "show_object_outline" (.b false)),
   ("show_specular_highlight", safe_getattr d.shading.extra "show_specular_highlight" (.b true)),
   ("use_dof", safe_getattr d.shading.extra "use_dof" (.b false)),
   ("show_xray", safe_getattr d.shading.extra "show_xray" (.b false)),
   ("xray_alpha", safe_getattr d.shading.extra "xray_alpha" (.r 0.5)),
   ("show_shadows", safe_getattr d.shading.extra "show_shadows" (.b false)),
   ("shadow_intensity", safe_getattr d.shading.extra "shadow_intensity" (.r 0.5)),
   ("studio_light", safe_getattr d.shading.extra "studio_light" (.s "DEFAULT")),
   ("studiolight_rotate_z", safe_getattr d.shading.extra "studiolight_rotate_z" (.r 0)),
   ("studiolight_intensity", safe_getattr d.shading.extra "studiolight_intensity" (.r 1)),
   ("studiolight_background_alpha", safe_getattr d.shading.extra "studiolight_background_alpha" (.r 0)),
   ("studiolight_background_blur", safe_getattr d.shading.extra "studiolight_background_blur" (.r 0))]

/-- The comprehensive settings snapshot of
`BPL_OT_apply_blast_settings.execute` (lines 1708-1995): the dict that a
successful save serialises into `props.original_settings`. The three
engine sections are appended exactly as the source assigns them, with `{}`
on their `except` paths. -/
def saveComprehensiveDict (scene : Scene) (prefs : Prefs) (env : SaveEnv) :
    Attrs :=
  [("render_engine", .s scene.render.engine),
   ("filepath", .s scene.render.filepath),
   ("resolution_x", .i scene.render.resolution_x),
   ("resolution_y", .i scene.render.resolution_y),
   ("resolution_percentage", .i scene.render.resolution_percentage),
   ("pixel_aspect_x", .r scene.render.pixel_aspect_x),
   ("pixel_aspect_y", .r scene.render.pixel_aspect_y),
   ("use_file_extension", .b scene.render.use_file_extension),
   ("use_overwrite", .b scene.render.use_overwrite),
   ("use_placeholder", .b scene.render.use_placeholder),
   ("frame_start", .i scene.frame_start),
   ("frame_end", .i scene.frame_end),
   ("frame_step", .i scene.frame_step),
   ("frame_current", .i scene.frame_current),
   ("film_transparent", .b scene.render.film_transparent),
   ("filter_size", .r scene.render.filter_size),
   ("use_persistent_data", .b scene.render.use_persistent_data),
   ("use_simplify", .b scene.render.use_simplify),
   ("simplify_subdivision", .i scene.render.simplify_subdivision),
   ("simplify_child_particles", .r scene.render.simplify_child_particles),
   ("simplify_volumes", .r scene.render.simplify_volumes),
   ("simplify_subdivision_render",
     safe_getattr scene.render.extra "simplify_subdivision_render" (.i 6)),
   ("simplify_child_particles_render",
     safe_getattr scene.render.extra "simplify_child_particles_render" (.r 1)),
   ("simplify_volumes_render",
     safe_getattr scene.render.extra "simplify_volumes_render" (.r 1)),
   ("use_motion_blur", .b scene.render.use_motion_blur),
   ("motion_blur_shutter", .r scene.render.motion_blur_shutter),
   ("motion_blur_shutter_curve",
     .s (pyStr (safe_getattr scene.render.extra "motion_blur_shutter_curve" (.s "AUTO")))),
   ("rolling_shutter_type",
     safe_getattr scene.render.extra "rolling_shutter_type" (.s "NONE")),
   ("rolling_shutter_duration",
     safe_getattr scene.render.extra "rolling_shutter_duration" (.r 0.1)),
   ("threads_mode", .s scene.render.threads_mode),
   ("threads", .i scene.render.threads),
   ("tile_x", safe_getattr scene.render.extra "tile_x" (.i 64)),
   ("tile_y", safe_getattr scene.render.extra "tile_y" (.i 64)),
   ("use_save_buffers", safe_getattr scene.render.extra "use_save_buffers" (.b false)),
   ("display_mode", .s prefs.render_display_type),
   ("preview_pixel_size", safe_getattr scene.render.extra "preview_pixel_size" (.s "AUTO")),
   ("image_settings", .obj
     [("file_format", .s scene.render.image_settings.file_format),
      ("color_mode", .s scene.render.image_settings.color_mode),
      ("color_depth", .s scene.render.image_settings.color_depth),
      ("compression", .i scene.render.image_settings.compression),
      ("quality", .i scene.render.image_settings.quality),
      ("use_preview", .b scene.render.image_settings.use_preview),
      ("exr_codec", safe_getattr scene.render.image_settings.extra "exr_codec" (.s "ZIP")),
      ("use_zbuffer", safe_getattr scene.render.image_settings.extra "use_zbuffer" (.b false)),
      ("jpeg2k_codec", safe_getattr scene.render.image_settings.extra "jpeg2k_codec" (.s "JP2")),
      ("tiff_codec", safe_getattr scene.render.image_settings.extra "tiff_codec" (.s "DEFLATE"))]),
   ("ffmpeg", .obj
     [("format", .s scene.render.ffmpeg.format),
      ("codec", .s scene.render.ffmpeg.codec),
      ("video_bitrate", .i scene.render.ffmpeg.video_bitrate),
      ("minrate", .i scene.render.ffmpeg.minrate),
      ("maxrate", .i scene.render.ffmpeg.maxrate),
      ("buffersize", .i scene.render.ffmpeg.buffersize),
      ("muxrate", .i scene.render.ffmpeg.muxrate),
      ("packetsize", .i scene.render.ffmpeg.packetsize),
      ("constant_rate_factor", .s scene.render.ffmpeg.constant_rate_factor),
      ("gopsize", .i scene.render.ffmpeg.gopsize),
      ("use_max_b_frames", safe_getattr scene.render.ffmpeg.extra "use_max_b_frames" (.b false)),
      ("max_b_frames", safe_getattr scene.render.ffmpeg.extra "max_b_frames" (.i 2)),
      ("use_autosplit", safe_getattr scene.render.ffmpeg.extra "use_autosplit" (.b false)),
      ("autosplit_size", safe_getattr scene.render.ffmpeg.extra "autosplit_size" (.i 2048)),
      ("audio_codec", .s scene.render.ffmpeg.audio_codec),
      ("audio_bitrate", .i scene.render.ffmpeg.audio_bitrate),
      ("audio_channels", .i scene.render.ffmpeg.audio_channels),
      ("audio_mixrate", .i scene.render.ffmpeg.audio_mixrate),
      ("audio_volume", .r scene.render.ffmpeg.audio_volume)]),
   ("world", .s ((scene.world).getD "")),
   ("use_nodes", .b scene.use_nodes),
   ("use_compositing", .b scene.render.use_compositing),
   ("use_sequencer", .b scene.render.use_sequencer),
   ("use_border", .b scene.render.use_border),
   ("border_min_x", .r scene.render.border_min_x),
   ("border_max_x", .r scene.render.border_max_x),
   ("border_min_y", .r scene.render.border_min_y),
   ("border_max_y", .r scene.render.border_max_y),
   ("use_crop_to_border", .b scene.render.use_crop_to_border),
   ("use_stamp", .b scene.render.use_stamp),
   ("use_stamp_date", .b scene.render.use_stamp_date),
   ("use_stamp_time", .b scene.render.use_stamp_time),
   ("use_stamp_frame", .b scene.render.use_stamp_frame),
   ("use_stamp_camera", .b scene.render.use_stamp_camera),
   ("use_stamp_lens", .b scene.render.use_stamp_lens),
   ("use_stamp_scene", .b scene.render.use_stamp_scene),
   ("use_stamp_note", .b scene.render.use_stamp_note),
   ("stamp_note_text", .s scene.render.stamp_note_text),
   ("use_stamp_marker", .b scene.render.use_stamp_marker),
   ("use_stamp_filename", .b scene.render.use_stamp_filename),
   ("use_stamp_render_time", .b scene.render.use_stamp_render_time),
   ("use_stamp_memory", .b scene.render.use_stamp_memory),
   ("use_stamp_hostname", .b scene.render.use_stamp_hostname),
   ("stamp_font_size", .i scene.render.stamp_font_size),
   ("stamp_foreground", .arr (scene.render.stamp_foreground.map .r)),
   ("stamp_background", .arr (scene.render.stamp_background.map .r)),
   ("hair_type", safe_getattr scene.render.extra "hair_type" (.s "PATH")),
   ("hair_subdiv", safe_getattr scene.render.extra "hair_subdiv" (.i 3))]
  ++
  [("cycles", .obj (if env.cyclesRaises then []
      else cyclesSaveDefaults.map fun kd => (kd.1, safe_getattr scene.cycles kd.1 kd.2))),
   ("eevee", .obj (match scene.eevee with
      | some e =>
        if env.eeveeRaises then []
        else eeveeSaveDefaults.map fun kd => (kd.1, safe_getattr e kd.1 kd.2)
      | none => [])),
   ("workbench", .obj (if env.workbenchRaises then []
      else workbenchSaveList scene.display))]

/-- The host state a restore mutates: the scene, the view preferences and
the `bpy.data.worlds` datablock names. -/
structure HostSt where
  scene : Scene
  prefs : Prefs
  worlds : List String

/-- The monad of `BPL_OT_restore_original_settings.execute`: mutation of the
host state with an exception channel; `throw ()` models the `KeyError` of a
direct dictionary index on a missing key, which the operator's broad
`except` turns into `CANCELLED`. -/
abbrev RestoreM := ExceptT Unit (StateM HostSt)

/-- A direct dictionary index `d[k]`: `KeyError` when missing. -/
def idx (d : Attrs) (k : String) : RestoreM SVal :=
  match d.lookup k with
  | some v => pure v
  | none => throw ()

/-- Mutate the scene. -/
def modScene (f : Scene → Scene) : RestoreM Unit :=
  modify fun st => { st with scene := f st.scene }

/-- Mutate `scene.render`. -/
def modRender (f : RenderSettings → RenderSettings) : RestoreM Unit :=
  modScene fun s => { s with render := f s.render }

/-- Mutate `scene.display.shading`. -/
def modShading (f : DisplayShading → DisplayShading) : RestoreM Unit :=
  modScene fun s => { s with display := { s.display with shading := f s.display.shading } }

/-- One step of an engine-settings restore run: a direct dictionary index
(raising `KeyError` on a missing key) or a `safe_restore` with a `.get`
default. -/
inductive RKey where
  | direct (k : String)
  | safe (k : String) (d : SVal)

/-- The Cycles restore sequence (lines 2881-2931), in source order: the
direct indexes are exactly `device`, `samples`, `preview_samples`,
`use_denoising`, `use_adaptive_sampling`, `adaptive_threshold`,
`adaptive_min_samples`, `light_sampling_threshold`, `max_bounces`,
`diffuse_bounces`, `glossy_bounces`, `transmission_bounces`,
`volume_bounces`, `caustics_reflective`, `caustics_refractive`,
`pixel_filter_width` and `use_persistent_data`. -/
def cyclesRestoreSeq : List RKey :=
  [.direct "device", .safe "feature_set" (.s "SUPPORTED"),
   .safe "shading_system" (.s "SVM"),
   .direct "samples", .direct "preview_samples",
   .safe "aa_samples" (.i 4), .safe "preview_aa_samples" (.i 4),
   .direct "use_denoising", .safe "denoiser" (.s "OPENIMAGEDENOISE"),
   .safe "denoising_input_passes" (.s "RGB_ALBEDO_NORMAL"),
   .safe "use_denoising_input_passes" (.b true),
   .safe "denoising_prefilter" (.s "ACCURATE"),
   .direct "use_adaptive_sampling", .direct "adaptive_threshold",
   .direct "adaptive_min_samples",
   .safe "time_limit" (.r 0), .safe "use_preview_adaptive_sampling" (.b false),
   .safe "preview_adaptive_threshold" (.r 0.1),
   .safe "preview_adaptive_min_samples" (.i 0),
   .safe "seed" (.i 0), .safe "use_animated_seed" (.b false),
   .safe "sample_clamp_direct" (.r 0), .safe "sample_clamp_indirect" (.r 0),
   .direct "light_sampling_threshold",
   .safe "sample_all_lights_direct" (.b true),
   .safe "sample_all_lights_indirect" (.b true),
   .direct "max_bounces", .direct "diffuse_bounces", .direct "glossy_bounces",
   .direct "transmission_bounces", .direct "volume_bounces",
   .safe "transparent_max_bounces" (.i 8),
   .direct "caustics_reflective", .direct "caustics_refractive",
   .safe "filter_type" (.s "GAUSSIAN"), .safe "filter_width" (.r 1.5),
   .direct "pixel_filter_width", .direct "use_persistent_data",
   .safe "debug_use_spatial_splits" (.b false),
   .safe "debug_use_hair_bvh" (.b true),
   .safe "debug_bvh_type" (.s "DYNAMIC_BVH"),
   .safe "debug_use_compact_bvh" (.b true),
   .safe "tile_size" (.i 256), .safe "use_auto_tile" (.b false),
   .safe "progressive" (.s "PATH"), .safe "use_square_samples" (.b false),
   .safe "blur_glossy" (.r 0), .safe "use_transparent_shadows" (.b true),
   .safe "volume_step_rate" (.r 1), .safe "volume_preview_step_rate" (.r 1),
   .safe "volume_max_steps" (.i 1024)]

/-- Run the Cycles restore sequence against `scene.cycles` (a plain
`setattr` for a direct index, `safe_restore` otherwise). -/
def runCyclesRestore (cySettings : Attrs) : RestoreM Unit := do
  for rk in cyclesRestoreSeq do
    match rk with
    | .direct k => do
      let v ← idx cySettings k
      modScene fun s => { s with cycles := setAttr s.cycles k v }
    | .safe k d =>
      modScene fun s =>
        { s with cycles := safe_restore s.cycles k (safe_getattr cySettings k d) }

/-- The EEVEE restore block (lines 2944-2993) repeats exactly the
`(attribute, default)` pairs of the save section, every one through
`safe_restore`/`.get`. -/
def eeveeRestoreMap (eeveeSettings : Attrs) (e : Attrs) : Attrs :=
  eeveeSaveDefaults.foldl
    (fun acc kd => safe_restore acc kd.1 (safe_getattr eeveeSettings kd.1 kd.2)) e

/-- Workbench restore `safe_restore` pairs before `render_aa`
(lines 3006-3012, targets `scene.display.shading`). -/
def workbenchSafeShading1 : List (String × SVal) :=
  [("single_color", .arr [.r 0.8, .r 0.8, .r 0.8]),
   ("background_type", .s "THEME"),
   ("background_color", .arr [.r 0.05, .r 0.05, .r 0.05]),
   ("cavity_ridge_factor", .r 1), ("cavity_valley_factor", .r 1),
   ("curvature_ridge_factor", .r 1), ("curvature_valley_factor", .r 1)]

/-- Workbench restore `safe_restore` pairs after `render_aa`
(lines 3014-3026, targets `scene.display.shading`). -/
def workbenchSafeShading2 : List (String × SVal) :=
  [("show_cavity", .b false), ("show_object_outline", .b false),
   ("show_specular_highlight", .b true), ("use_dof", .b false),
   ("show_xray", .b false), ("xray_alpha", .r 0.5),
   ("show_shadows", .b false), ("shadow_intensity", .r 0.5),
   ("studio_light", .s "DEFAULT"), ("studiolight_rotate_z", .r 0),
   ("studiolight_intensity", .r 1), ("studiolight_background_alpha", .r 0),
   ("studiolight_background_blur", .r 0)]

/-- The Workbench restore block (lines 3003-3026): three direct indexes
into `workbench_settings`, then `safe_restore` for the rest (`render_aa`
targets `scene.display`, everything else `scene.display.shading`). -/
def runWorkbenchRestore (wb : Attrs) : RestoreM Unit := do
  let v ← idx wb "shading_type"
  modShading fun sh => { sh with type := v.asStr sh.type }
  let v ← idx wb "light"
  modShading fun sh => { sh with light := v.asStr sh.light }
  let v ← idx wb "color_type"
  modShading fun sh => { sh with color_type := v.asStr sh.color_type }
  modShading fun sh =>
    { sh with extra := (workbenchSafeShading1.foldl
        (fun acc kd => safe_restore acc kd.1 (safe_getattr wb kd.1 kd.2)) sh.extra) }
  modScene fun s =>
    { s with display := { s.display with
        extra := (safe_restore s.display.extra "render_aa"
          (safe_getattr wb "render_aa" (.s "FXAA"))) } }
  modShading fun sh =>
    { sh with extra := (workbenchSafeShading2.foldl
        (fun acc kd => safe_restore acc kd.1 (safe_getattr wb kd.1 kd.2)) sh.extra) }

set_option maxRecDepth 8000 in
/-- The body of the `try` of
`BPL_OT_restore_original_settings.execute` up to the light-state section
(lines 2737-3039): every host write it performs on the scene, the view
preferences and the worlds collection, in source order. Direct dictionary
indexes throw on a missing key; `.get`/`safe_restore` accesses do not.
The light-state restore (lines 3044-3065) touches only scene light objects
inside its own warning-only `try` and is not modelled. -/
def restoreSceneSnapshot (original : Attrs) : RestoreM Unit := do
  let v ← idx original "filepath"
  modRender fun r => { r with filepath := v.asStr r.filepath }
  let v ← idx original "resolution_x"
  modRender fun r => { r with resolution_x := v.asInt r.resolution_x }
  let v ← idx original "resolution_y"
  modRender fun r => { r with resolution_y := v.asInt r.resolution_y }
  let v ← idx original "resolution_percentage"
  modRender fun r => { r with resolution_percentage := v.asInt r.resolution_percentage }
  modRender fun r =>
    { r with pixel_aspect_x := (safe_getattr original "pixel_aspect_x" (.r 1)).asRat r.pixel_aspect_x }
  modRender fun r =>
    { r with pixel_aspect_y := (safe_getattr original "pixel_aspect_y" (.r 1)).asRat r.pixel_aspect_y }
  let v ← idx original "use_file_extension"
  modRender fun r => { r with use_file_extension := v.asBool r.use_file_extension }
  let v ← idx original "use_overwrite"
  modRender fun r => { r with use_overwrite := v.asBool r.use_overwrite }
  let v ← idx original "use_placeholder"
  modRender fun r => { r with use_placeholder := v.asBool r.use_placeholder }
  let v ← idx original "frame_start"
  modScene fun s => { s with frame_start := v.asInt s.frame_start }
  let v ← idx original "frame_end"
  modScene fun s => { s with frame_end := v.asInt s.frame_end }
  let v ← idx original "frame_step"
  modScene fun s => { s with frame_step := v.asInt s.frame_step }
  modScene fun s =>
    { s with frame_current := (safe_getattr original "frame_current" (.i 1)).asInt s.frame_current }
  let v ← idx original "film_transparent"
  modRender fun r => { r with film_transparent := v.asBool r.film_transparent }
  let v ← idx original "filter_size"
  modRender fun r => { r with filter_size := v.asRat r.filter_size }
  let v ← idx original "use_persistent_data"
  modRender fun r => { r with use_persistent_data := v.asBool r.use_persistent_data }
  let v ← idx original "use_simplify"
  modRender fun r => { r with use_simplify := v.asBool r.use_simplify }
  let v ← idx original "simplify_subdivision"
  modRender fun r => { r with simplify_subdivision := v.asInt r.simplify_subdivision }
  let v ← idx original "simplify_child_particles"
  modRender fun r => { r with simplify_child_particles := v.asRat r.simplify_child_particles }
  let v ← idx original "simplify_volumes"
  modRender fun r => { r with simplify_volumes := v.asRat r.simplify_volumes }
  modRender fun r =>
    { r with extra := (safe_restore r.extra "simplify_subdivision_render"
        (safe_getattr original "simplify_subdivision_render" (.i 6))) }
  modRender fun r =>
    { r with extra := (safe_restore r.extra "simplify_child_particles_render"
        (safe_getattr original "simplify_child_particles_render" (.r 1))) }
  modRender fun r =>
    { r with extra := (safe_restore r.extra "simplify_volumes_render"
        (safe_getattr original "simplify_volumes_render" (.r 1))) }
  let v ← idx original "use_motion_blur"
  modRender fun r => { r with use_motion_blur := v.asBool r.use_motion_blur }
  let v ← idx original "motion_blur_shutter"
  modRender fun r => { r with motion_blur_shutter := v.asRat r.motion_blur_shutter }
  modRender fun r =>
    { r with extra := (safe_restore r.extra "motion_blur_shutter_curve"
        (safe_getattr original "motion_blur_shutter_curve" (.s "AUTO"))) }
  modRender fun r =>
    { r with extra := (safe_restore r.extra "rolling_shutter_type"
        (safe_getattr original "rolling_shutter_type" (.s "NONE"))) }
  modRender fun r =>
    { r with extra := (safe_restore r.extra "rolling_shutter_duration"
        (safe_getattr original "rolling_shutter_duration" (.r 0.1))) }
  let v ← idx original "threads_mode"
  modRender fun r => { r with threads_mode := v.asStr r.threads_mode }
  let v ← idx original "threads"
  modRender fun r => { r with threads := v.asInt r.threads }
  modRender fun r =>
    { r with extra := safe_restore r.extra "tile_x" (safe_getattr original "tile_x" (.i 64)) }
  modRender fun r =>
    { r with extra := safe_restore r.extra "tile_y" (safe_getattr original "tile_y" (.i 64)) }
  modRender fun r =>
    { r with extra := (safe_restore r.extra "use_save_buffers"
        (safe_getattr original "use_save_buffers" (.b false))) }
  let v ← idx original "display_mode"
  modify fun st =>
    { st with prefs := { render_display_type := v.asStr st.prefs.render_display_type } }
  modRender fun r =>
    { r with extra := (safe_restore r.extra "preview_pixel_size"
        (safe_getattr original "preview_pixel_size" (.s "AUTO"))) }
  match original.lookup "image_settings" with
  | some imv =>
    let img := imv.asObj []
    let v ← idx img "file_format"
    modRender fun r => { r with image_settings :=
      { r.image_settings with file_format := v.asStr r.image_settings.file_format } }
    let v ← idx img "color_mode"
    modRender fun r => { r with image_settings :=
      { r.image_settings with color_mode := v.asStr r.image_settings.color_mode } }
    let v ← idx img "color_depth"
    modRender fun r => { r with image_settings :=
      { r.image_settings with color_depth := v.asStr r.image_settings.color_depth } }
    let v ← idx img "compression"
    modRender fun r => { r with image_settings :=
      { r.image_settings with compression := v.asInt r.image_settings.compression } }
    let v ← idx img "quality"
    modRender fun r => { r with image_settings :=
      { r.image_settings with quality := v.asInt r.image_settings.quality } }
    let v ← idx img "use_preview"
    modRender fun r => { r with image_settings :=
      { r.image_settings with use_preview := v.asBool r.image_settings.use_preview } }
    modRender fun r => { r with image_settings := { r.image_settings with
      extra := (safe_restore r.image_settings.extra "exr_codec"
        (safe_getattr img "exr_codec" (.s "ZIP"))) } }
    modRender fun r => { r with image_settings := { r.image_settings with
      extra := (safe_restore r.image_settings.extra "use_zbuffer"
        (safe_getattr img "use_zbuffer" (.b false))) } }
    modRender fun r => { r with image_settings := { r.image_settings with
      extra := (safe_restore r.image_settings.extra "jpeg2k_codec"
        (safe_getattr img "jpeg2k_codec" (.s "JP2"))) } }
    modRender fun r => { r with image_settings := { r.image_settings with
      extra := (safe_restore r.image_settings.extra "tiff_codec"
        (safe_getattr img "tiff_codec" (.s "DEFLATE"))) } }
  | none => pure ()
  let v ← idx original "use_nodes"
  modScene fun s => { s with use_nodes := v.asBool s.use_nodes }
  let v ← idx original "use_compositing"
  modRender fun r => { r with use_compositing := v.asBool r.use_compositing }
  let v ← idx original "use_sequencer"
  modRender fun r => { r with use_sequencer := v.asBool r.use_sequencer }
  let v ← idx original "use_border"
  modRender fun r => { r with use_border := v.asBool r.use_border }
  let v ← idx original "border_min_x"
  modRender fun r => { r with border_min_x := v.asRat r.border_min_x }
  let v ← idx original "border_max_x"
  modRender fun r => { r with border_max_x := v.asRat r.border_max_x }
  let v ← idx original "border_min_y"
  modRender fun r => { r with border_min_y := v.asRat r.border_min_y }
  let v ← idx original "border_max_y"
  modRender fun r => { r with border_max_y := v.asRat r.border_max_y }
  let v ← idx original "use_crop_to_border"
  modRender fun r => { r with use_crop_to_border := v.asBool r.use_crop_to_border }
  let v ← idx original "use_stamp"
  modRender fun r => { r with use_stamp := v.asBool r.use_stamp }
  let v ← idx original "use_stamp_date"
  modRender fun r => { r with use_stamp_date := v.asBool r.use_stamp_date }
  let v ← idx original "use_stamp_time"
  modRender fun r => { r with use_stamp_time := v.asBool r.use_stamp_time }
  let v ← idx original "use_stamp_frame"
  modRender fun r => { r with use_stamp_frame := v.asBool r.use_stamp_frame }
  let v ← idx original "use_stamp_camera"
  modRender fun r => { r with use_stamp_camera := v.asBool r.use_stamp_camera }
  let v ← idx original "use_stamp_lens"
  modRender fun r => { r with use_stamp_lens := v.asBool r.use_stamp_lens }
  let v ← idx original "use_stamp_scene"
  modRender fun r => { r with use_stamp_scene := v.asBool r.use_stamp_scene }
  let v ← idx original "use_stamp_note"
  modRender fun r => { r with use_stamp_note := v.asBool r.use_stamp_note }
  let v ← idx original "stamp_note_text"
  modRender fun r => { r with stamp_note_text := v.asStr r.stamp_note_text }
  let v ← idx original "use_stamp_marker"
  modRender fun r => { r with use_stamp_marker := v.asBool r.use_stamp_marker }
  let v ← idx original "use_stamp_filename"
  modRender fun r => { r with use_stamp_filename := v.asBool r.use_stamp_filename }
  let v ← idx original "use_stamp_render_time"
  modRender fun r => { r with use_stamp_render_time := v.asBool r.use_stamp_render_time }
  let v ← idx original "use_stamp_memory"
  modRender fun r => { r with use_stamp_memory := v.asBool r.use_stamp_memory }
  let v ← idx original "use_stamp_hostname"
  modRender fun r => { r with use_stamp_hostname := v.asBool r.use_stamp_hostname }
  let v ← idx original "stamp_font_size"
  modRender fun r => { r with stamp_font_size := v.asInt r.stamp_font_size }
  let v ← idx original "stamp_foreground"
  modRender fun r => { r with stamp_foreground := v.asRatList r.stamp_foreground }
  let v ← idx original "stamp_background"
  modRender fun r => { r with stamp_background := v.asRatList r.stamp_background }
  modRender fun r =>
    { r with extra := safe_restore r.extra "hair_type" (safe_getattr original "hair_type" (.s "PATH")) }
  modRender fun r =>
    { r with extra := safe_restore r.extra "hair_subdiv" (safe_getattr original "hair_subdiv" (.i 3)) }
  match original.lookup "ffmpeg" with
  | some fv =>
    let ff := fv.asObj []
    let v ← idx ff "format"
    modRender fun r => { r with ffmpeg := { r.ffmpeg with format := v.asStr r.ffmpeg.format } }
    let v ← idx ff "codec"
    modRender fun r => { r with ffmpeg := { r.ffmpeg with codec := v.asStr r.ffmpeg.codec } }
    let v ← idx ff "video_bitrate"
    modRender fun r => { r with ffmpeg := { r.ffmpeg with video_bitrate := v.asInt r.ffmpeg.video_bitrate } }
    let v ← idx ff "minrate"
    modRender fun r => { r with ffmpeg := { r.ffmpeg with minrate := v.asInt r.ffmpeg.minrate } }
    let v ← idx ff "maxrate"
    modRender fun r => { r with ffmpeg := { r.ffmpeg with maxrate := v.asInt r.ffmpeg.maxrate } }
    let v ← idx ff "buffersize"
    modRender fun r => { r with ffmpeg := { r.ffmpeg with buffersize := v.asInt r.ffmpeg.buffersize } }
    let v ← idx ff "muxrate"
    modRender fun r => { r with ffmpeg := { r.ffmpeg with muxrate := v.asInt r.ffmpeg.muxrate } }
    let v ← idx ff "packetsize"
    modRender fun r => { r with ffmpeg := { r.ffmpeg with packetsize := v.asInt r.ffmpeg.packetsize } }
    let v ← idx ff "constant_rate_factor"
    modRender fun r => { r with ffmpeg := { r.ffmpeg with constant_rate_factor := v.asStr r.ffmpeg.constant_rate_factor } }
    let v ← idx ff "gopsize"
    modRender fun r => { r with ffmpeg := { r.ffmpeg with gopsize := v.asInt r.ffmpeg.gopsize } }
    modRender fun r => { r with ffmpeg := { r.ffmpeg with
      extra := (safe_restore r.ffmpeg.extra "use_max_b_frames"
        (safe_getattr ff "use_max_b_frames" (.b false))) } }
    modRender fun r => { r with ffmpeg := { r.ffmpeg with
      extra := (safe_restore r.ffmpeg.extra "max_b_frames"
        (safe_getattr ff "max_b_frames" (.i 2))) } }
    modRender fun r => { r with ffmpeg := { r.ffmpeg with
      extra := (safe_restore r.ffmpeg.extra "use_autosplit"
        (safe_getattr ff "use_autosplit" (.b false))) } }
    modRender fun r => { r with ffmpeg := { r.ffmpeg with
      extra := (safe_restore r.ffmpeg.extra "autosplit_size"
        (safe_getattr ff "autosplit_size" (.i 2048))) } }
    let v ← idx ff "audio_codec"
    modRender fun r => { r with ffmpeg := { r.ffmpeg with audio_codec := v.asStr r.ffmpeg.audio_codec } }
    let v ← idx ff "audio_bitrate"
    modRender fun r => { r with ffmpeg := { r.ffmpeg with audio_bitrate := v.asInt r.ffmpeg.audio_bitrate } }
    let v ← idx ff "audio_channels"
    modRender fun r => { r with ffmpeg := { r.ffmpeg with audio_channels := v.asInt r.ffmpeg.audio_channels } }
    let v ← idx ff "audio_mixrate"
    modRender fun r => { r with ffmpeg := { r.ffmpeg with audio_mixrate := v.asInt r.ffmpeg.audio_mixrate } }
    let v ← idx ff "audio_volume"
    modRender fun r => { r with ffmpeg := { r.ffmpeg with audio_volume := v.asRat r.ffmpeg.audio_volume } }
  | none => pure ()
  match original.lookup "render_engine" with
  | some ev =>
    modRender fun r => { r with engine := ev.asStr r.engine }
    match original.lookup "cycles" with
    | some cv =>
      if cv.truthy then runCyclesRestore (cv.asObj []) else pure ()
    | none => pure ()
    modScene fun s =>
      match original.lookup "eevee" with
      | some eev =>
        if eev.truthy then
          match s.eevee with
          | some e => { s with eevee := some (eeveeRestoreMap (eev.asObj []) e) }
          | none => s
        else s
      | none => s
    match original.lookup "workbench" with
    | some wv =>
      if wv.truthy then runWorkbenchRestore (wv.asObj []) else pure ()
    | none => pure ()
  | none => pure ()
  modify fun st =>
    match original.lookup "world" with
    | some wv =>
      if wv.truthy then
        if st.worlds.contains (wv.asStr "") then
          { st with scene := { st.scene with world := some (wv.asStr "") } }
        else
          { st with scene := { st.scene with world := some "Default" },
                    worlds := st.worlds ++ ["Default"] }
      else { st with scene := { st.scene with world := none } }
    | none => st

/-- `region_3d` of a 3D view window region. -/
structure Region3D where
  view_perspective : String
  use_local_camera : Bool
deriving DecidableEq, Repr

/-- `area.spaces.active` of a 3D view. -/
structure SpaceView3D where
  shading_type : String
  show_overlays : Bool
  region_3d : Option Region3D
deriving DecidableEq, Repr

/-- A screen area: its type, its active space and its region types. -/
structure Area where
  area_type : String
  space : SpaceView3D
  regions : List String
deriving DecidableEq, Repr

/-- The per-window-region reset of the restore viewport loop
(lines 3078-3085): a camera view goes to `PERSP` with
`use_local_camera = False`; any other view is untouched. -/
def resetCameraRegion (r : Region3D) : Region3D :=
  if r.view_perspective = "CAMERA" then
    { view_perspective := "PERSP", use_local_camera := false }
  else r

/-- The viewport loop body of
`BPL_OT_restore_original_settings.execute` (lines 3067-3085) for one
area: every `VIEW_3D` area gets shading `'SOLID'` and overlays enabled,
and for each `WINDOW` region the camera-view reset runs on the space's
`region_3d`. The loop reads no snapshot data. -/
def viewportRegionStep (sp : SpaceView3D) (rt : String) : SpaceView3D :=
  if rt = "WINDOW" then { sp with region_3d := sp.region_3d.map resetCameraRegion }
  else sp

def restoreViewArea (a : Area) : Area :=
  if a.area_type = "VIEW_3D" then
    let sp0 := { a.space with shading_type := "SOLID", show_overlays := true }
    let sp := a.regions.foldl viewportRegionStep sp0
    { a with space := sp }
  else a

/-- Result of a run of `BPL_OT_restore_original_settings.execute`. -/
structure RestoreResult where
  status : OpStatus
  reports : List Report
  host : HostSt
  areas : List Area
  props : BPLProps

/-- `BPL_OT_restore_original_settings.execute` (lines 2711-3097): an empty
`props.original_settings` reports an error and returns `CANCELLED`
(lines 2715-2718); otherwise the snapshot restore runs inside the broad
`try`, whose `except` reports an error and returns `CANCELLED`; on success
the viewport loop runs, both snapshot properties are cleared, an info
report is made and `FINISHED` is returned (lines 3067-3093). -/
def restoreExecute (props : BPLProps) (host : HostSt) (areas : List Area) :
    RestoreResult :=
  match props.original_settings with
  | none =>
    { status := .CANCELLED,
      reports := [⟨"ERROR", "No original settings saved to restore"⟩],
      host, areas, props }
  | some original =>
    match ((restoreSceneSnapshot original).run).run host with
    | (.error _, host1) =>
      { status := .CANCELLED,
        reports := [⟨"ERROR", "Error restoring settings"⟩],
        host := host1, areas, props }
    | (.ok _, host1) =>
      { status := .FINISHED,
        reports := [⟨"INFO", "Original settings restored"⟩],
        host := host1,
        areas := areas.map restoreViewArea,
        props := { props with
          original_settings := none,
          original_settings_extended := "" } }

/-! ### Invoke-time capture and cleanup of `BPL_OT_create_playblast`
(claims C3, C7) -/

/-- The `self._original_settings` dict captured at the start of
`BPL_OT_create_playblast.invoke` (lines 573-599). `frame_start` and
`frame_end` hold the values saved at lines 565-566 before the manual-range
override; all other reads happen before any mutation, so the whole capture
reads the scene as it was when `invoke` began. -/
structure OrigSettings where
  filepath : String
  resolution_x : Int
  resolution_y : Int
  resolution_percentage : Int
  use_file_extension : Bool
  use_overwrite : Bool
  use_placeholder : Bool
  camera : Option String
  frame_start : Int
  frame_end : Int
  image_file_format : String
  image_color_mode : String
  display_mode : String
  use_stamp : Bool
  use_stamp_date : Bool
  use_stamp_time : Bool
  use_stamp_frame : Bool
  use_stamp_camera : Bool
  use_stamp_lens : Bool
  use_stamp_scene : Bool
  use_stamp_note : Bool
  stamp_note_text : String

/-- Build `self._original_settings` from the scene and preferences at the
start of `invoke`. -/
def captureOriginalSettings (s : Scene) (p : Prefs) : OrigSettings :=
  { filepath := s.render.filepath,
    resolution_x := s.render.resolution_x,
    resolution_y := s.render.resolution_y,
    resolution_percentage := s.render.resolution_percentage,
    use_file_extension := s.render.use_file_extension,
    use_overwrite := s.render.use_overwrite,
    use_placeholder := s.render.use_placeholder,
    camera := s.camera,
    frame_start := s.frame_start,
    frame_end := s.frame_end,
    image_file_format := s.render.image_settings.file_format,
    image_color_mode := s.render.image_settings.color_mode,
    display_mode := p.render_display_type,
    use_stamp := s.render.use_stamp,
    use_stamp_date := s.render.use_stamp_date,
    use_stamp_time := s.render.use_stamp_time,
    use_stamp_frame := s.render.use_stamp_frame,
    use_stamp_camera := s.render.use_stamp_camera,
    use_stamp_lens := s.render.use_stamp_lens,
    use_stamp_scene := s.render.use_stamp_scene,
    use_stamp_note := s.render.use_stamp_note,
    stamp_note_text := s.render.stamp_note_text }

/-- The `self._original_cycles_render` dict captured at lines 1022-1032
(Cycles RENDERED mode), with its fixed nine keys. -/
def captureCyclesRender (s : Scene) : Attrs :=
  [("samples", safe_getattr s.cycles "samples" (.i 128)),
   ("use_denoising", safe_getattr s.cycles "use_denoising" (.b true)),
   ("max_bounces", safe_getattr s.cycles "max_bounces" (.i 12)),
   ("diffuse_bounces", safe_getattr s.cycles "diffuse_bounces" (.i 4)),
   ("glossy_bounces", safe_getattr s.cycles "glossy_bounces" (.i 4)),
   ("transmission_bounces", safe_getattr s.cycles "transmission_bounces" (.i 12)),
   ("volume_bounces", safe_getattr s.cycles "volume_bounces" (.i 0)),
   ("use_adaptive_sampling", safe_getattr s.cycles "use_adaptive_sampling" (.b true)),
   ("adaptive_threshold", safe_getattr s.cycles "adaptive_threshold" (.r 0.01))]

/-- The restore loop over `self._original_cycles_render`
(lines 1257-1265): a `file_format` entry would go to
`scene.render.image_settings.file_format`; any other key goes to
`scene.cycles` when the attribute exists. -/
def applyCyclesRenderRestore (d : Attrs) (s : Scene) : Scene :=
  d.foldl
    (fun s kv =>
      if kv.1 = "file_format" then
        { s with render := { s.render with image_settings :=
            { s.render.image_settings with file_format := kv.2.asStr s.render.image_settings.file_format } } }
      else if hasAttr s.cycles kv.1 then { s with cycles := setAttr s.cycles kv.1 kv.2 }
      else s)
    s

/-- The scene- and preference-level writes of
`BPL_OT_create_playblast.cleanup` when `self._original_settings` is set
(primary restoration, lines 1207-1241, plus the `_original_cycles_render`
loop, lines 1256-1265). `_original_render_engine` and
`_original_cycles_viewport` are `None` on every code path (lines 999-1000,
1058-1059), so their guarded blocks never run; with
`self._original_settings` set, the secondary JSON path (line 1269) is
skipped. The progress-property resets and the viewport-space restore
(lines 1183-1205) touch no scene field. -/
def cleanupRestoreScene (o : OrigSettings) (cyr : Attrs) (s : Scene)
    (_p : Prefs) : Scene × Prefs :=
  let s1 : Scene :=
    { s with
      render := { s.render with
        filepath := o.filepath,
        resolution_x := o.resolution_x,
        resolution_y := o.resolution_y,
        resolution_percentage := o.resolution_percentage,
        use_file_extension := o.use_file_extension,
        use_overwrite := o.use_overwrite,
        use_placeholder := o.use_placeholder,
        image_settings := { s.render.image_settings with
          file_format := o.image_file_format,
          color_mode := o.image_color_mode },
        use_stamp := o.use_stamp,
        use_stamp_date := o.use_stamp_date,
        use_stamp_time := o.use_stamp_time,
        use_stamp_frame := o.use_stamp_frame,
        use_stamp_camera := o.use_stamp_camera,
        use_stamp_lens := o.use_stamp_lens,
        use_stamp_scene := o.use_stamp_scene,
        use_stamp_note := o.use_stamp_note,
        stamp_note_text := o.stamp_note_text },
      camera := o.camera,
      frame_start := o.frame_start,
      frame_end := o.frame_end }
  (applyCyclesRenderRestore cyr s1, { render_display_type := o.display_mode })

/-! ### The modal state machine of `BPL_OT_create_playblast`
(claims C4, C7) -/

/-- The phases declared at line 379: `SETUP, RENDER, ENCODE, COMPLETE`. -/
inductive Phase where
  | SETUP
  | RENDER
  | ENCODE
  | COMPLETE
deriving DecidableEq, Repr

/-- Modal events the handler distinguishes. -/
inductive ModalEvent where
  | ESC
  | TIMER
  | OTHER
deriving DecidableEq, Repr

/-- The operator-instance state the modal handler reads and writes. -/
structure ModalState where
  phase : Phase
  last_reported_frame : Int
  frame_start : Int
  frame_end : Int
  use_actual_render : Bool
  original_settings : OrigSettings
  original_cycles_render : Attrs

/-- What the polling loop observes on disk on one timer tick. -/
structure DiskEnv where
  frames_dir_exists : Bool
  png_frame_count : Int
  output_file_exists : Bool

/-- Host calls a modal step makes. -/
structure ModalEffects where
  timer_removed : Bool
  render_cancel_invoked : Bool
  cleanup_ran : Bool
  render_started : Bool
  finish_ran : Bool
deriving DecidableEq, Repr

/-- Result of one call of `BPL_OT_create_playblast.modal`. -/
structure ModalResult where
  state : ModalState
  scene : Scene
  prefs : Prefs
  ret : OpStatus
  effects : ModalEffects

/-- No host calls. -/
def noEffects : ModalEffects :=
  { timer_removed := false, render_cancel_invoked := false,
    cleanup_ran := false, render_started := false, finish_ran := false }

/-- The `_last_reported_frame` update at the top of the `RENDER` phase
(lines 458-460): the field is set to the current frame whenever it
changed. -/
def updateLastReported (m : ModalState) (cur : Int) : ModalState :=
  if cur ≠ m.last_reported_frame then { m with last_reported_frame := cur }
  else m

/-- The render-completion probe of the `RENDER` phase (lines 483-501):
with actual (Cycles) rendering, the frames directory must exist and hold at
least `frame_end - frame_start + 1` PNG files; otherwise the joined output
video file must exist. -/
def renderCompleteProbe (m : ModalState) (env : DiskEnv) : Bool :=
  if m.use_actual_render then
    env.frames_dir_exists && env.png_frame_count ≥ m.frame_end - m.frame_start + 1
  else
    env.output_file_exists

/-- `BPL_OT_create_playblast.modal` (lines 389-546) as one transition step.
`ESC` removes the timer, fires the render call that cancels the running
render, runs `cleanup` and returns `CANCELLED`. On `TIMER`: `SETUP` starts
the render and moves to `RENDER`; `RENDER` first updates
`_last_reported_frame` to the current frame (lines 458-460), then moves to
`COMPLETE` when the loop-back check or the completion probe fires
(line 505), or else when the current frame reaches `frame_end - 1`
(line 519, which also forces the frame to `frame_end`); `COMPLETE` removes
the timer, runs `finish` and returns `FINISHED`. Any other event (and the
declared-but-never-assigned `ENCODE` phase) passes through. -/
def modalStep (m : ModalState) (scene : Scene) (prefs : Prefs)
    (ev : ModalEvent) (env : DiskEnv) : ModalResult :=
  match ev with
  | .ESC =>
    let (s1, p1) :=
      cleanupRestoreScene m.original_settings m.original_cycles_render scene prefs
    { state := m, scene := s1, prefs := p1, ret := .CANCELLED,
      effects := { noEffects with
        timer_removed := true, render_cancel_invoked := true,
        cleanup_ran := true } }
  | .TIMER =>
    match m.phase with
    | .SETUP =>
      { state := { m with phase := .RENDER }, scene, prefs,
        ret := .PASS_THROUGH,
        effects := { noEffects with render_started := true } }
    | .RENDER =>
      let current_frame := scene.frame_current
      let m1 := updateLastReported m current_frame
      let render_complete := renderCompleteProbe m1 env
      if (current_frame = m1.frame_start ∧ m1.last_reported_frame ≥ m1.frame_end)
          ∨ render_complete = true then
        { state := { m1 with phase := .COMPLETE }, scene, prefs,
          ret := .PASS_THROUGH, effects := noEffects }
      else if current_frame ≥ m1.frame_end - 1 then
        { state := { m1 with phase := .COMPLETE },
          scene := { scene with frame_current := m1.frame_end }, prefs,
          ret := .PASS_THROUGH, effects := noEffects }
      else
        { state := m1, scene, prefs, ret := .PASS_THROUGH, effects := noEffects }
    | .COMPLETE =>
      { state := m, scene, prefs, ret := .FINISHED,
        effects := { noEffects with
          timer_removed := true, finish_ran := true } }
    | .ENCODE =>
      { state := m, scene, prefs, ret := .PASS_THROUGH, effects := noEffects }
  | .OTHER =>
    { state := m, scene, prefs, ret := .PASS_THROUGH, effects := noEffects }

/-! ### The settings-application block of `BPL_OT_apply_blast_settings`
(claim C5) -/

/-- The top-level steps of the application `try` block of
`BPL_OT_apply_blast_settings.execute` (lines 2018-2690), in source order. -/
inductive ApplyStep where
  | configure_engine_for_display_mode
  | set_resolution
  | create_output_directory
  | set_output_path
  | set_file_format
  | set_audio_settings
  | set_frame_range
  | setup_metadata
  | report_applied
deriving DecidableEq, Repr

/-- The application steps in order. -/
def applySteps : List ApplyStep :=
  [.configure_engine_for_display_mode, .set_resolution,
   .create_output_directory, .set_output_path, .set_file_format,
   .set_audio_settings, .set_frame_range, .setup_metadata, .report_applied]

/-- Outcome of the application `try`/`except` of
`BPL_OT_apply_blast_settings.execute`. -/
structure ApplyOutcome where
  executed : List ApplyStep
  reports : List Report
  ret : Option OpStatus
deriving DecidableEq, Repr

/-- The `try` block at lines 2018-2690 with its two `except` clauses.
`raiseAt = some k` models an exception escaping the `k`-th step. The first
`except Exception` (line 2692) catches every exception, reports
`Error saving original settings`, prints the continue message, and control
falls off the end of `execute` (Python returns `None`); the second
`except Exception` (line 2700), which would report and return `CANCELLED`,
is unreachable because the first clause already matches every exception. -/
def applyBlastSettingsBlock (raiseAt : Option Nat) : ApplyOutcome :=
  match raiseAt with
  | none =>
    { executed := applySteps,
      reports := [⟨"INFO", "Blast settings applied"⟩],
      ret := some .FINISHED }
  | some k =>
    { executed := applySteps.take k,
      reports := [⟨"ERROR", "Error saving original settings"⟩],
      ret := none }

/-- The settings-saving `try` at lines 836-844 of
`BPL_OT_create_playblast.invoke`: an exception while serialising the
comprehensive snapshot is caught, logged, `props.original_settings` is set
to the empty string, and `invoke` continues into the application `try` at
line 846. -/
def invokeStoreSnapshot (raises : Bool) (snapshot : Attrs) (props : BPLProps) :
    BPLProps × Bool :=
  if raises then ({ props with original_settings := none }, true)
  else ({ props with original_settings := some snapshot }, true)

/-! ### The updater version comparison (claim C10) -/

/-- `version_tuple_from_string` from `updater/__init__.py`: split on dots,
`int()` each component, and fall back to `(0, 0, 0)` when any component
raises. -/
def version_tuple_from_string (version_str : String) : List Int :=
  match (splitOnChar '.' version_str.toList).mapM pyIntChars with
  | some t => t
  | none => [0, 0, 0]

/-- Python `<` on int tuples: lexicographic, a strict prefix is smaller. -/
def pyTupleLt : List Int → List Int → Bool
  | [], [] => false
  | [], _ :: _ => true
  | _ :: _, [] => false
  | x :: xs, y :: ys => if x < y then true else if y < x then false else pyTupleLt xs ys

/-- The `UpdaterState` class of `updater/__init__.py` (the fields the
comparison touches). -/
structure UpdaterState where
  checking_for_updates : Bool
  update_available : Bool
  update_version : String
  error_message : String

/-- The version-comparison core of `_check_for_updates_async`
(lines 50-92) on the success path, where the GitHub request returned
release data with tag `tagName`. The download-URL selection that runs
inside the update branch touches only `update_download_url` and is not
modelled. -/
def check_for_updates_core (currentVersion tagName : String)
    (st : UpdaterState) : UpdaterState :=
  let latest_version := lstripV tagName
  let latest_version_tuple := version_tuple_from_string latest_version
  let current_version_tuple := version_tuple_from_string currentVersion
  if pyTupleLt current_version_tuple latest_version_tuple then
    { st with update_available := true, update_version := latest_version }
  else
    { st with update_available := false }

/-! ### Concrete sample data used by witness theorems -/

/-- A concrete `scene.render.image_settings`. -/
def sampleImageSettings : ImageSettings :=
  { file_format := "OPEN_EXR", color_mode := "RGB", color_depth := "16",
    compression := 15, quality := 90, use_preview := false,
    extra := [("exr_codec", .s "ZIP")] }

/-- A concrete `scene.render.ffmpeg`. -/
def sampleFfmpeg : FfmpegSettings :=
  { format := "QUICKTIME", codec := "H264", video_bitrate := 6000,
    minrate := 0, maxrate := 9000, buffersize := 1792, muxrate := 10080,
    packetsize := 2048, constant_rate_factor := "MEDIUM", gopsize := 18,
    audio_codec := "AAC", audio_bitrate := 192, audio_channels := 2,
    audio_mixrate := 48000, audio_volume := 1,
    extra := [("use_max_b_frames", .b false)] }

/-- A concrete `scene.render`. -/
def sampleRender : RenderSettings :=
  { engine := "CYCLES", filepath := "//render/out", resolution_x := 2048,
    resolution_y := 858, resolution_percentage := 50, pixel_aspect_x := 1,
    pixel_aspect_y := 1, use_file_extension := false, use_overwrite := false,
    use_placeholder := true, film_transparent := true, filter_size := 1.5,
    use_persistent_data := false, use_simplify := false,
    simplify_subdivision := 6, simplify_child_particles := 1,
    simplify_volumes := 1, use_motion_blur := true,
    motion_blur_shutter := 0.5, threads_mode := "AUTO", threads := 8,
    use_compositing := true, use_sequencer := true, use_border := false,
    border_min_x := 0, border_max_x := 1, border_min_y := 0,
    border_max_y := 1, use_crop_to_border := false, use_stamp := false,
    use_stamp_date := true, use_stamp_time := true, use_stamp_frame := true,
    use_stamp_camera := false, use_stamp_lens := false,
    use_stamp_scene := true, use_stamp_note := false,
    stamp_note_text := "shot 12", use_stamp_marker := false,
    use_stamp_filename := true, use_stamp_render_time := false,
    use_stamp_memory := false, use_stamp_hostname := false,
    stamp_font_size := 12, stamp_foreground := [1, 1, 1, 1],
    stamp_background := [0, 0, 0, 0.8], fps := 24, fps_base := 1,
    image_settings := sampleImageSettings, ffmpeg := sampleFfmpeg,
    extra := [("tile_x", .i 64), ("hair_type", .s "PATH")] }

/-- A concrete scene. -/
def sampleScene : Scene :=
  { render := sampleRender, frame_start := 10, frame_end := 120,
    frame_step := 1, frame_current := 42, camera := some "ShotCam",
    world := some "World", use_nodes := true,
    cycles := [("device", .s "GPU"), ("samples", .i 256),
               ("use_denoising", .b true), ("max_bounces", .i 12),
               ("diffuse_bounces", .i 4), ("glossy_bounces", .i 4),
               ("transmission_bounces", .i 12), ("volume_bounces", .i 0),
               ("use_adaptive_sampling", .b true),
               ("adaptive_threshold", .r 0.01),
               ("preview_samples", .i 32),
               ("adaptive_min_samples", .i 0),
               ("light_sampling_threshold", .r 0.01),
               ("caustics_reflective", .b true),
               ("caustics_refractive", .b true),
               ("pixel_filter_width", .r 1.5),
               ("use_persistent_data", .b false)],
    eevee := some [("taa_render_samples", .i 64)],
    display := { shading := { type := "MATERIAL", light := "MATCAP",
                              color_type := "OBJECT",
                              extra := [("show_cavity", .b true)] },
                 extra := [("render_aa", .s "FXAA")] } }

/-- Concrete view preferences. -/
def samplePrefs : Prefs := { render_display_type := "WINDOW" }

/-- A concrete host state. -/
def sampleHost : HostSt :=
  { scene := sampleScene, prefs := samplePrefs, worlds := ["World"] }

/-- Concrete add-on properties (the declared defaults of `BPLProperties`,
with no snapshot stored). -/
def sampleProps : BPLProps :=
  { output_path := "//blast/", file_name := "blast_",
    last_playblast_file := "", camera_object := "NONE",
    use_active_camera := true, resolution_mode := "SCENE",
    resolution_preset := "x1920y1080", resolution_x := 1920,
    resolution_y := 1080, resolution_percentage := 100,
    use_scene_frame_range := true, start_frame := 1, end_frame := 250,
    video_format := "MPEG4", video_codec := "H264",
    video_quality := "MEDIUM", include_audio := false,
    audio_codec := "AAC", audio_bitrate := 192, display_mode := "SOLID",
    auto_disable_overlays := true, enable_depth_of_field := true,
    show_metadata := true, metadata_resolution := true,
    metadata_frame := true, metadata_scene := true, metadata_camera := true,
    metadata_lens := true, metadata_date := true, metadata_note := "",
    use_custom_ffmpeg_args := false,
    custom_ffmpeg_args := "-c:v h264_nvenc -preset fast -crf 0",
    is_rendering := false, status_message := "", original_settings := none,
    original_settings_extended := "" }

/-- A concrete snapshot: the comprehensive save taken on the sample scene
with none of the engine sections raising. -/
def sampleSnapshot : Attrs :=
  saveComprehensiveDict sampleScene samplePrefs
    { cyclesRaises := false, eeveeRaises := false, workbenchRaises := false }

/-- Concrete screen areas: a 3D view in camera view plus a properties
editor. -/
def sampleAreas : List Area :=
  [{ area_type := "VIEW_3D",
     space := { shading_type := "RENDERED", show_overlays := false,
                region_3d := some { view_perspective := "CAMERA",
                                    use_local_camera := true } },
     regions := ["HEADER", "WINDOW"] },
   { area_type := "PROPERTIES",
     space := { shading_type := "SOLID", show_overlays := true,
                region_3d := none },
     regions := ["WINDOW"] }]

/-- A concrete modal state in the `RENDER` phase. -/
def sampleModalState : ModalState :=
  { phase := .RENDER, last_reported_frame := 40, frame_start := 10,
    frame_end := 120, use_actual_render := false,
    original_settings := captureOriginalSettings sampleScene samplePrefs,
    original_cycles_render := captureCyclesRender sampleScene }

/-- A concrete polling observation: the output video exists. -/
def sampleDisk : DiskEnv :=
  { frames_dir_exists := false, png_frame_count := 0,
    output_file_exists := true }

/-! ### Helper lemmas -/

/-- Strict Python tuple comparison is asymmetric. -/
theorem pyTupleLt_asymm : ∀ a b : List Int, pyTupleLt a b = true → pyTupleLt b a = false
  | [], [] => by simp [pyTupleLt]
  | [], _ :: _ => fun _ => rfl
  | _ :: _, [] => fun h => absurd h (by simp [pyTupleLt])
  | x :: xs, y :: ys => by
    intro h
    simp only [pyTupleLt] at h ⊢
    rcases lt_trichotomy x y with hlt | heq | hgt
    · rw [if_neg (not_lt.mpr hlt.le), if_pos hlt]
    · subst heq
      rw [if_neg (lt_irrefl x), if_neg (lt_irrefl x)] at h ⊢
      exact pyTupleLt_asymm xs ys h
    · rw [if_neg (not_lt.mpr hgt.le), if_pos hgt] at h
      exact absurd h (by simp)

/-- `mapM` over `Option` fails when any element fails. -/
theorem mapM_pyIntChars_none {l : List (List Char)} {c : List Char}
    (hc : c ∈ l) (hn : pyIntChars c = none) :
    l.mapM pyIntChars = none := by
  induction l with
  | nil => cases hc
  | cons x t ih =>
    rcases List.mem_cons.mp hc with rfl | hmem
    · rw [List.mapM_cons, hn]; rfl
    · rw [List.mapM_cons, ih hmem]
      cases pyIntChars x <;> rfl

/-- A version string with a component `int()` rejects parses to the
`(0, 0, 0)` fallback. -/
theorem version_tuple_malformed (s : String)
    (h : ∃ c ∈ splitOnChar '.' s.toList, pyIntChars c = none) :
    version_tuple_from_string s = [0, 0, 0] := by
  obtain ⟨c, hc, hn⟩ := h
  unfold version_tuple_from_string
  rw [mapM_pyIntChars_none hc hn]

/-- The `_original_cycles_render` restore loop only rewrites
`scene.cycles` when no key is `file_format`. -/
theorem applyCyclesRenderRestore_noFileFormat :
    ∀ (d : Attrs) (s : Scene), (∀ kv ∈ d, ¬kv.1 = "file_format") →
      ∃ cy, applyCyclesRenderRestore d s = { s with cycles := cy }
  | [], s, _ => ⟨s.cycles, rfl⟩
  | kv :: t, s, h => by
    have hk : ¬kv.1 = "file_format" := h kv (List.mem_cons_self kv t)
    have ht : ∀ kv ∈ t, ¬kv.1 = "file_format" :=
      fun kv hm => h kv (List.mem_cons_of_mem _ hm)
    show ∃ cy, applyCyclesRenderRestore t
        (if kv.1 = "file_format" then _ else
          if hasAttr s.cycles kv.1 then { s with cycles := setAttr s.cycles kv.1 kv.2 }
          else s) = { s with cycles := cy }
    rw [if_neg hk]
    by_cases hA : hasAttr s.cycles kv.1
    · rw [if_pos hA]
      obtain ⟨cy, hcye⟩ :=
        applyCyclesRenderRestore_noFileFormat t
          { s with cycles := setAttr s.cycles kv.1 kv.2 } ht
      exact ⟨cy, hcye⟩
    · rw [if_neg hA]
      exact applyCyclesRenderRestore_noFileFormat t s ht

/-- The region fold of the restore viewport loop leaves the shading and
overlay fields of the space unchanged. -/
theorem viewportRegionFold_shading (l : List String) (sp : SpaceView3D) :
    (l.foldl viewportRegionStep sp).shading_type = sp.shading_type ∧
    (l.foldl viewportRegionStep sp).show_overlays = sp.show_overlays := by
  induction l generalizing sp with
  | nil => exact ⟨rfl, rfl⟩
  | cons x t ih =>
    rw [List.foldl_cons]
    have hstep : (viewportRegionStep sp x).shading_type = sp.shading_type ∧
        (viewportRegionStep sp x).show_overlays = sp.show_overlays := by
      unfold viewportRegionStep
      by_cases hx : x = "WINDOW" <;> simp [hx]
    obtain ⟨h1, h2⟩ := ih (viewportRegionStep sp x)
    exact ⟨h1.trans hstep.1, h2.trans hstep.2⟩

/-- The camera-view reset is idempotent. -/
theorem resetCameraRegion_idem (r : Region3D) :
    resetCameraRegion (resetCameraRegion r) = resetCameraRegion r := by
  unfold resetCameraRegion
  by_cases h : r.view_perspective = "CAMERA" <;> simp [h]

/-- A fold over regions without a `WINDOW` region changes nothing. -/
theorem viewportRegionFold_no_window (l : List String) (sp : SpaceView3D)
    (h : "WINDOW" ∉ l) : l.foldl viewportRegionStep sp = sp := by
  induction l generalizing sp with
  | nil => rfl
  | cons x t ih =>
    have hx : ¬x = "WINDOW" := fun he => h (he ▸ List.mem_cons_self x t)
    rw [List.foldl_cons, viewportRegionStep, if_neg hx]
    exact ih sp (fun hm => h (List.mem_cons_of_mem _ hm))

/-- The region fold applies the camera-view reset exactly once when a
`WINDOW` region is present. -/
theorem viewportRegionFold_region (l : List String) (sp : SpaceView3D)
    (hw : "WINDOW" ∈ l) :
    (l.foldl viewportRegionStep sp).region_3d = sp.region_3d.map resetCameraRegion := by
  induction l generalizing sp with
  | nil => cases hw
  | cons x t ih =>
    rw [List.foldl_cons]
    rcases List.mem_cons.mp hw with rfl | hmem
    · rw [viewportRegionStep, if_pos rfl]
      by_cases ht : "WINDOW" ∈ t
      · rw [ih _ ht]
        cases sp.region_3d with
        | none => rfl
        | some r => simp [resetCameraRegion_idem]
      · rw [viewportRegionFold_no_window t _ ht]
    · by_cases hx : x = "WINDOW"
      · subst hx
        rw [viewportRegionStep, if_pos rfl, ih _ hmem]
        cases sp.region_3d with
        | none => rfl
        | some r => simp [resetCameraRegion_idem]
      · rw [viewportRegionStep, if_neg hx]
        exact ih _ hmem

/-! ### Claim theorems -/

set_option maxRecDepth 200000 in
/-- C2: for every snapshot produced by a successful comprehensive save in
`BPL_OT_apply_blast_settings.execute`, every key that
`BPL_OT_restore_original_settings.execute` reads by direct dictionary
indexing (top-level keys such as `filepath`, `film_transparent`,
`threads_mode`, `use_stamp_marker`, and the sub-keys indexed directly under
`image_settings`, `ffmpeg`, `cycles` and `workbench`) is present, so the
whole guarded read/write sequence runs without a `KeyError` — it returns
`ok` for every scene, preference state and save-section outcome. -/
theorem comprehensive_snapshot_covers_restore_reads
    (scene : Scene) (prefs : Prefs) (env : SaveEnv) (host : HostSt) :
    (((restoreSceneSnapshot (saveComprehensiveDict scene prefs env)).run).run host).1
      = Except.ok () ∧
    ((["filepath", "film_transparent", "threads_mode", "use_stamp_marker",
       "image_settings", "ffmpeg", "cycles", "workbench"] : List String).all
        (fun k => hasAttr (saveComprehensiveDict scene prefs env) k)) = true := by
  obtain ⟨cr, er, wr⟩ := env
  cases cr <;> cases wr <;> exact ⟨rfl, rfl⟩

/-- C5 (code bug): an exception escaping the application `try` block of
`BPL_OT_apply_blast_settings.execute` is caught broadly and reported, but
contrary to the code's own comment and log message
(`Continuing with applying blast settings despite saving error...`) the
remaining application steps never run: at the failing input (an exception
in the very first step) nothing is applied, `set_resolution` in particular
is skipped, and `execute` falls off the end returning `None` — the second
handler that would return `CANCELLED` is unreachable. -/
theorem apply_settings_exception_halts_block :
    (applyBlastSettingsBlock (some 0)).ret = none ∧
    (applyBlastSettingsBlock (some 0)).reports =
      [⟨"ERROR", "Error saving original settings"⟩] ∧
    (applyBlastSettingsBlock (some 0)).executed = [] ∧
    ((applyBlastSettingsBlock (some 0)).executed.contains
      ApplyStep.set_resolution) = false ∧
    applyBlastSettingsBlock none =
      { executed := applySteps,
        reports := [⟨"INFO", "Blast settings applied"⟩],
        ret := some .FINISHED } :=
  ⟨rfl, rfl, rfl, by decide, rfl⟩

/-- C7: on an `ESC` event, `BPL_OT_create_playblast.modal` removes the
event timer, invokes the host render call that cancels the running render,
runs `cleanup` (restoring the captured settings through
`cleanupRestoreScene`) and returns `CANCELLED`, for every modal state and
polling environment. -/
theorem modal_esc_cancels (m : ModalState) (scene : Scene) (prefs : Prefs)
    (env : DiskEnv) :
    modalStep m scene prefs .ESC env =
      { state := m,
        scene := (cleanupRestoreScene m.original_settings
          m.original_cycles_render scene prefs).1,
        prefs := (cleanupRestoreScene m.original_settings
          m.original_cycles_render scene prefs).2,
        ret := .CANCELLED,
        effects := { timer_removed := true, render_cancel_invoked := true,
                     cleanup_ran := true, render_started := false,
                     finish_ran := false } } := rfl

/-- C9: the encoder command built by `convert_frames_to_video` always uses
`libx264`, `yuv420p` and CRF 18; it does not depend on `video_codec`,
`video_quality`, `use_custom_ffmpeg_args` or `custom_ffmpeg_args`; and
`video_format` only changes the output container extension (every element
but the final output path is unchanged). -/
theorem convert_cmd_hardcodes_encoder (props : BPLProps)
    (render : RenderSettings) (fs fe : Int) :
    (∃ rate pattern base,
      convert_frames_to_video_cmd props render fs fe =
        ["ffmpeg", "-y", "-framerate", rate, "-i", pattern, "-c:v", "libx264",
         "-pix_fmt", "yuv420p", "-crf", "18",
         pathJoin props.output_path (base ++ get_file_extension props.video_format)]) ∧
    (∀ c q u a,
      convert_frames_to_video_cmd
        { props with video_codec := c, video_quality := q,
                     use_custom_ffmpeg_args := u, custom_ffmpeg_args := a }
        render fs fe = convert_frames_to_video_cmd props render fs fe) ∧
    (∀ vf,
      (convert_frames_to_video_cmd { props with video_format := vf }
          render fs fe).dropLast
        = (convert_frames_to_video_cmd props render fs fe).dropLast) :=
  ⟨⟨_, _, _, rfl⟩, fun _ _ _ _ => rfl, fun _ => rfl⟩

/-- C10: `_check_for_updates_async` reports an update exactly when the
tuple parsed from the release tag (all leading `v` stripped) is
lexicographically greater than the current version tuple;
`version_tuple_from_string` collapses any string with a non-integer
component to `(0, 0, 0)`; hence a malformed remote tag never reports an
update when the current version parses above `(0, 0, 0)`. -/
theorem updater_version_comparison (cur tag : String) (st : UpdaterState) :
    ((check_for_updates_core cur tag st).update_available = true ↔
      pyTupleLt (version_tuple_from_string cur)
        (version_tuple_from_string (lstripV tag)) = true) ∧
    (∀ s : String, (∃ c ∈ splitOnChar '.' s.toList, pyIntChars c = none) →
      version_tuple_from_string s = [0, 0, 0]) ∧
    ((∃ c ∈ splitOnChar '.' (lstripV tag).toList, pyIntChars c = none) →
      pyTupleLt [0, 0, 0] (version_tuple_from_string cur) = true →
      (check_for_updates_core cur tag st).update_available = false) := by
  refine ⟨?_, version_tuple_malformed, ?_⟩
  · unfold check_for_updates_core
    by_cases hc : pyTupleLt (version_tuple_from_string cur)
        (version_tuple_from_string (lstripV tag)) = true <;>
      simp [hc]
  · intro hmal hgt
    simp [check_for_updates_core, version_tuple_malformed _ hmal,
      pyTupleLt_asymm _ _ hgt]

/-- Witness for C10 at a malformed remote tag: current version `1.2.3`,
tag `vNext` — no update is reported. -/
theorem updater_version_comparison_witness :
    (check_for_updates_core "1.2.3" "vNext"
      ⟨false, false, "", ""⟩).update_available = false :=
  (updater_version_comparison "1.2.3" "vNext" ⟨false, false, "", ""⟩).2.2
    ⟨"Next".toList, by decide, by decide⟩ (by decide)

/-- With no `file_format` key among the captured Cycles keys,
`cleanupRestoreScene` produces exactly the primary-restoration record (the
cycles map aside). -/
theorem cleanupRestoreScene_fst (o : OrigSettings) (cyr : Attrs)
    (h : ∀ kv ∈ cyr, ¬kv.1 = "file_format") (s : Scene) (p : Prefs) :
    ∃ cy, (cleanupRestoreScene o cyr s p).1 =
      { s with
        render := { s.render with
          filepath := o.filepath,
          resolution_x := o.resolution_x,
          resolution_y := o.resolution_y,
          resolution_percentage := o.resolution_percentage,
          use_file_extension := o.use_file_extension,
          use_overwrite := o.use_overwrite,
          use_placeholder := o.use_placeholder,
          image_settings := { s.render.image_settings with
            file_format := o.image_file_format,
            color_mode := o.image_color_mode },
          use_stamp := o.use_stamp,
          use_stamp_date := o.use_stamp_date,
          use_stamp_time := o.use_stamp_time,
          use_stamp_frame := o.use_stamp_frame,
          use_stamp_camera := o.use_stamp_camera,
          use_stamp_lens := o.use_stamp_lens,
          use_stamp_scene := o.use_stamp_scene,
          use_stamp_note := o.use_stamp_note,
          stamp_note_text := o.stamp_note_text },
        camera := o.camera,
        frame_start := o.frame_start,
        frame_end := o.frame_end,
        cycles := cy } := by
  obtain ⟨cy, hcy⟩ := applyCyclesRenderRestore_noFileFormat cyr
    { s with
      render := { s.render with
        filepath := o.filepath,
        resolution_x := o.resolution_x,
        resolution_y := o.resolution_y,
        resolution_percentage := o.resolution_percentage,
        use_file_extension := o.use_file_extension,
        use_overwrite := o.use_overwrite,
        use_placeholder := o.use_placeholder,
        image_settings := { s.render.image_settings with
          file_format := o.image_file_format,
          color_mode := o.image_color_mode },
        use_stamp := o.use_stamp,
        use_stamp_date := o.use_stamp_date,
        use_stamp_time := o.use_stamp_time,
        use_stamp_frame := o.use_stamp_frame,
        use_stamp_camera := o.use_stamp_camera,
        use_stamp_lens := o.use_stamp_lens,
        use_stamp_scene := o.use_stamp_scene,
        use_stamp_note := o.use_stamp_note,
        stamp_note_text := o.stamp_note_text },
      camera := o.camera,
      frame_start := o.frame_start,
      frame_end := o.frame_end } h
  exact ⟨cy, hcy⟩

/-- C3: after `BPL_OT_create_playblast.cleanup` runs with the snapshot
captured at the start of `invoke`, the scene's frame range, render
filepath, resolutions, camera, image-settings file format and color mode,
render display type, and all captured stamp settings equal their values at
the start of `invoke` — whatever the playblast overwrote in between (the
current scene and preferences are universally quantified). -/
theorem cleanup_restores_captured_settings
    (s0 : Scene) (p0 : Prefs) (sc sMut : Scene) (pMut : Prefs) :
    ((cleanupRestoreScene (captureOriginalSettings s0 p0)
        (captureCyclesRender sc) sMut pMut).1.frame_start = s0.frame_start) ∧
    ((cleanupRestoreScene (captureOriginalSettings s0 p0)
        (captureCyclesRender sc) sMut pMut).1.frame_end = s0.frame_end) ∧
    ((cleanupRestoreScene (captureOriginalSettings s0 p0)
        (captureCyclesRender sc) sMut pMut).1.render.filepath
      = s0.render.filepath) ∧
    ((cleanupRestoreScene (captureOriginalSettings s0 p0)
        (captureCyclesRender sc) sMut pMut).1.render.resolution_x
      = s0.render.resolution_x) ∧
    ((cleanupRestoreScene (captureOriginalSettings s0 p0)
        (captureCyclesRender sc) sMut pMut).1.render.resolution_y
      = s0.render.resolution_y) ∧
    ((cleanupRestoreScene (captureOriginalSettings s0 p0)
        (captureCyclesRender sc) sMut pMut).1.render.resolution_percentage
      = s0.render.resolution_percentage) ∧
    ((cleanupRestoreScene (captureOriginalSettings s0 p0)
        (captureCyclesRender sc) sMut pMut).1.camera = s0.camera) ∧
    ((cleanupRestoreScene (captureOriginalSettings s0 p0)
        (captureCyclesRender sc) sMut pMut).1.render.image_settings.file_format
      = s0.render.image_settings.file_format) ∧
    ((cleanupRestoreScene (captureOriginalSettings s0 p0)
        (captureCyclesRender sc) sMut pMut).1.render.image_settings.color_mode
      = s0.render.image_settings.color_mode) ∧
    ((cleanupRestoreScene (captureOriginalSettings s0 p0)
        (captureCyclesRender sc) sMut pMut).2.render_display_type
      = p0.render_display_type) ∧
    ((cleanupRestoreScene (captureOriginalSettings s0 p0)
        (captureCyclesRender sc) sMut pMut).1.render.use_stamp
      = s0.render.use_stamp) ∧
    ((cleanupRestoreScene (captureOriginalSettings s0 p0)
        (captureCyclesRender sc) sMut pMut).1.render.use_stamp_date
      = s0.render.use_stamp_date) ∧
    ((cleanupRestoreScene (captureOriginalSettings s0 p0)
        (captureCyclesRender sc) sMut pMut).1.render.use_stamp_time
      = s0.render.use_stamp_time) ∧
    ((cleanupRestoreScene (captureOriginalSettings s0 p0)
        (captureCyclesRender sc) sMut pMut).1.render.use_stamp_frame
      = s0.render.use_stamp_frame) ∧
    ((cleanupRestoreScene (captureOriginalSettings s0 p0)
        (captureCyclesRender sc) sMut pMut).1.render.use_stamp_camera
      = s0.render.use_stamp_camera) ∧
    ((cleanupRestoreScene (captureOriginalSettings s0 p0)
        (captureCyclesRender sc) sMut pMut).1.render.use_stamp_lens
      = s0.render.use_stamp_lens) ∧
    ((cleanupRestoreScene (captureOriginalSettings s0 p0)
        (captureCyclesRender sc) sMut pMut).1.render.use_stamp_scene
      = s0.render.use_stamp_scene) ∧
    ((cleanupRestoreScene (captureOriginalSettings s0 p0)
        (captureCyclesRender sc) sMut pMut).1.render.use_stamp_note
      = s0.render.use_stamp_note) ∧
    ((cleanupRestoreScene (captureOriginalSettings s0 p0)
        (captureCyclesRender sc) sMut pMut).1.render.stamp_note_text
      = s0.render.stamp_note_text) := by
  have hkeys : ∀ kv ∈ captureCyclesRender sc, ¬kv.1 = "file_format" := by
    intro kv hkv
    simp only [captureCyclesRender, List.mem_cons, List.not_mem_nil,
      or_false] at hkv
    rcases hkv with rfl | rfl | rfl | rfl | rfl | rfl | rfl | rfl | rfl <;> simp
  obtain ⟨cy, hc⟩ := cleanupRestoreScene_fst (captureOriginalSettings s0 p0)
    (captureCyclesRender sc) hkeys sMut pMut
  refine ⟨?_, ?_, ?_, ?_, ?_, ?_, ?_, ?_, ?_, ?_, ?_, ?_, ?_, ?_, ?_, ?_, ?_,
    ?_, ?_⟩ <;> (try rw [hc]) <;> rfl

/-- C1: when `BPL_OT_restore_original_settings.execute` succeeds
(returns `FINISHED`), the new areas are exactly `areas.map
restoreViewArea` — a function of the old viewport state alone, with no
snapshot input, so the result is the same for every stored snapshot — and
on every `VIEW_3D` area the shading type becomes the hardcoded `SOLID`,
overlays are enabled, and a camera view is reset to `PERSP`. -/
theorem restore_sets_hardcoded_viewport_defaults
    (props : BPLProps) (host : HostSt) (areas : List Area)
    (h : (restoreExecute props host areas).status = .FINISHED) :
    (restoreExecute props host areas).areas = areas.map restoreViewArea ∧
    (∀ a ∈ areas, a.area_type = "VIEW_3D" →
      (restoreViewArea a).space.shading_type = "SOLID" ∧
      (restoreViewArea a).space.show_overlays = true ∧
      (∀ r, a.space.region_3d = some r → "WINDOW" ∈ a.regions →
        r.view_perspective = "CAMERA" →
        (restoreViewArea a).space.region_3d =
          some { view_perspective := "PERSP", use_local_camera := false })) ∧
    (∀ props2 : BPLProps,
      (restoreExecute props2 host areas).status = .FINISHED →
      (restoreExecute props2 host areas).areas
        = (restoreExecute props host areas).areas) := by
  have hmap : ∀ p : BPLProps,
      (restoreExecute p host areas).status = .FINISHED →
      (restoreExecute p host areas).areas = areas.map restoreViewArea := by
    intro p hp
    rcases hos : p.original_settings with _ | orig
    · simp only [restoreExecute, hos] at hp
      exact OpStatus.noConfusion hp
    · simp only [restoreExecute, hos] at hp ⊢
      rcases hrun : ((restoreSceneSnapshot orig).run).run host with ⟨e, host1⟩
      rw [hrun] at hp
      cases e with
      | error u => exact OpStatus.noConfusion hp
      | ok u => rfl
  refine ⟨hmap props h, ?_, fun p2 h2 => (hmap p2 h2).trans (hmap props h).symm⟩
  intro a _ hv
  have hveq : restoreViewArea a =
      { a with space := (a.regions.foldl viewportRegionStep
          { a.space with shading_type := "SOLID", show_overlays := true }) } := by
    unfold restoreViewArea
    rw [if_pos hv]
  rw [hveq]
  refine ⟨(viewportRegionFold_shading a.regions _).1,
    (viewportRegionFold_shading a.regions _).2, ?_⟩
  intro r hr hw hcam
  show (a.regions.foldl viewportRegionStep
      { a.space with shading_type := "SOLID", show_overlays := true }).region_3d
    = some { view_perspective := "PERSP", use_local_camera := false }
  rw [viewportRegionFold_region a.regions _ hw]
  show (a.space.region_3d.map resetCameraRegion) = _
  rw [hr]
  show some (resetCameraRegion r) = _
  unfold resetCameraRegion
  rw [if_pos hcam]

set_option maxRecDepth 400000 in
/-- Witness for C1: a successful concrete restore with a camera-view 3D
viewport yields the hardcoded viewport defaults. -/
theorem restore_sets_hardcoded_viewport_defaults_witness :
    (restoreExecute { sampleProps with original_settings := some sampleSnapshot }
        sampleHost sampleAreas).areas = sampleAreas.map restoreViewArea :=
  (restore_sets_hardcoded_viewport_defaults _ sampleHost sampleAreas (by rfl)).1

/-- C6: `BPL_OT_restore_original_settings.execute` returns `CANCELLED`
with an error report whenever `props.original_settings` is empty, and
every `FINISHED` run clears both `original_settings` and
`original_settings_extended`. -/
theorem restore_snapshot_lifecycle (props : BPLProps) (host : HostSt)
    (areas : List Area) :
    (props.original_settings = none →
      (restoreExecute props host areas).status = .CANCELLED ∧
      (restoreExecute props host areas).reports =
        [⟨"ERROR", "No original settings saved to restore"⟩]) ∧
    ((restoreExecute props host areas).status = .FINISHED →
      (restoreExecute props host areas).props.original_settings = none ∧
      (restoreExecute props host areas).props.original_settings_extended = "") := by
  rcases hos : props.original_settings with _ | orig
  · refine ⟨fun _ => ?_, fun hfin => ?_⟩
    · constructor
      · simp only [restoreExecute, hos]
      · simp only [restoreExecute, hos]
    · simp only [restoreExecute, hos] at hfin
      exact OpStatus.noConfusion hfin
  · refine ⟨fun hnone => Option.noConfusion hnone, fun hfin => ?_⟩
    simp only [restoreExecute, hos] at hfin ⊢
    rcases hrun : ((restoreSceneSnapshot orig).run).run host with ⟨e, host1⟩
    rw [hrun] at hfin
    cases e with
    | error u => exact OpStatus.noConfusion hfin
    | ok u => exact ⟨rfl, rfl⟩

set_option maxRecDepth 400000 in
/-- Witness for C6: the empty snapshot cancels; a successful concrete
restore clears the stored snapshot. -/
theorem restore_snapshot_lifecycle_witness :
    (restoreExecute sampleProps sampleHost sampleAreas).status = .CANCELLED ∧
    (restoreExecute { sampleProps with original_settings := some sampleSnapshot }
        sampleHost sampleAreas).props.original_settings = none :=
  ⟨((restore_snapshot_lifecycle sampleProps sampleHost sampleAreas).1 rfl).1,
   ((restore_snapshot_lifecycle
      { sampleProps with original_settings := some sampleSnapshot }
      sampleHost sampleAreas).2 (by rfl)).1⟩

/-- C4: the modal handler's phase only moves `SETUP → RENDER → COMPLETE`
(the declared `ENCODE` phase is never entered), `FINISHED` is returned only
from the `COMPLETE` phase on a timer tick, and the `RENDER` phase moves to
`COMPLETE` exactly when the completion probe fires, the playhead sits on
the start frame with the just-updated last reported frame at or past
`frame_end`, or the current frame has reached `frame_end - 1`. -/
theorem modal_phase_machine (m : ModalState) (scene : Scene) (prefs : Prefs)
    (ev : ModalEvent) (env : DiskEnv) (henc : m.phase ≠ .ENCODE) :
    ((modalStep m scene prefs ev env).state.phase = m.phase ∨
      (m.phase = .SETUP ∧ (modalStep m scene prefs ev env).state.phase = .RENDER
        ∧ ev = .TIMER) ∨
      (m.phase = .RENDER ∧ (modalStep m scene prefs ev env).state.phase = .COMPLETE
        ∧ ev = .TIMER)) ∧
    (modalStep m scene prefs ev env).state.phase ≠ .ENCODE ∧
    ((modalStep m scene prefs ev env).ret = .FINISHED →
      m.phase = .COMPLETE ∧ ev = .TIMER) ∧
    (m.phase = .RENDER → ev = .TIMER →
      ((modalStep m scene prefs ev env).state.phase = .COMPLETE ↔
        (renderCompleteProbe (updateLastReported m scene.frame_current) env = true ∨
          (scene.frame_current = m.frame_start ∧
            (updateLastReported m scene.frame_current).last_reported_frame
              ≥ m.frame_end) ∨
          scene.frame_current ≥ m.frame_end - 1))) := by
  have hfs : (updateLastReported m scene.frame_current).frame_start
      = m.frame_start := by
    unfold updateLastReported; split <;> rfl
  have hfe : (updateLastReported m scene.frame_current).frame_end
      = m.frame_end := by
    unfold updateLastReported; split <;> rfl
  have hphup : (updateLastReported m scene.frame_current).phase = m.phase := by
    unfold updateLastReported; split <;> rfl
  cases ev with
  | ESC =>
    exact ⟨Or.inl rfl, henc, fun hfin => OpStatus.noConfusion hfin,
      fun _ hT => ModalEvent.noConfusion hT⟩
  | OTHER =>
    exact ⟨Or.inl rfl, henc, fun hfin => OpStatus.noConfusion hfin,
      fun _ hT => ModalEvent.noConfusion hT⟩
  | TIMER =>
    rcases hph : m.phase with _ | _ | _ | _
    · -- SETUP
      refine ⟨Or.inr (Or.inl ⟨rfl, ?_, rfl⟩), ?_, fun hfin => ?_,
        fun hR _ => Phase.noConfusion hR⟩
      · simp [modalStep, hph]
      · simp [modalStep, hph]
      · rw [show (modalStep m scene prefs .TIMER env).ret = .PASS_THROUGH by
          simp [modalStep, hph]] at hfin
        exact OpStatus.noConfusion hfin
    · -- RENDER
      have hstep : modalStep m scene prefs .TIMER env =
          (if (scene.frame_current
                = (updateLastReported m scene.frame_current).frame_start ∧
              (updateLastReported m scene.frame_current).last_reported_frame
                ≥ (updateLastReported m scene.frame_current).frame_end) ∨
              renderCompleteProbe (updateLastReported m scene.frame_current) env
                = true then
            { state := { updateLastReported m scene.frame_current with
                phase := .COMPLETE },
              scene := scene, prefs := prefs, ret := .PASS_THROUGH,
              effects := noEffects }
          else if scene.frame_current
              ≥ (updateLastReported m scene.frame_current).frame_end - 1 then
            { state := { updateLastReported m scene.frame_current with
                phase := .COMPLETE },
              scene := { scene with frame_current :=
                (updateLastReported m scene.frame_current).frame_end },
              prefs := prefs, ret := .PASS_THROUGH, effects := noEffects }
          else
            { state := updateLastReported m scene.frame_current,
              scene := scene, prefs := prefs, ret := .PASS_THROUGH,
              effects := noEffects }) := by
        simp only [modalStep, hph]
      rw [hstep]
      by_cases h1 : (scene.frame_current
            = (updateLastReported m scene.frame_current).frame_start ∧
          (updateLastReported m scene.frame_current).last_reported_frame
            ≥ (updateLastReported m scene.frame_current).frame_end) ∨
          renderCompleteProbe (updateLastReported m scene.frame_current) env = true
      · rw [if_pos h1]
        refine ⟨Or.inr (Or.inr ⟨rfl, rfl, rfl⟩),
          fun hcon => Phase.noConfusion hcon,
          fun hfin => OpStatus.noConfusion hfin,
          fun _ _ => iff_of_true rfl ?_⟩
        rcases h1 with hl | hp
        · exact Or.inr (Or.inl ⟨hl.1.trans hfs, hfe ▸ hl.2⟩)
        · exact Or.inl hp
      · rw [if_neg h1]
        by_cases h2 : scene.frame_current
            ≥ (updateLastReported m scene.frame_current).frame_end - 1
        · rw [if_pos h2]
          exact ⟨Or.inr (Or.inr ⟨rfl, rfl, rfl⟩),
            fun hcon => Phase.noConfusion hcon,
            fun hfin => OpStatus.noConfusion hfin,
            fun _ _ => iff_of_true rfl (Or.inr (Or.inr (hfe ▸ h2)))⟩
        · rw [if_neg h2]
          refine ⟨Or.inl (hphup.trans hph), ?_,
            fun hfin => OpStatus.noConfusion hfin,
            fun _ _ => iff_of_false ?_ ?_⟩
          · exact fun hcon => henc (hphup.symm.trans hcon)
          · exact fun hcon =>
              Phase.noConfusion (hph.symm.trans (hphup.symm.trans hcon))
          · intro hcon
            rcases hcon with hp | hl | he
            · exact h1 (Or.inr hp)
            · exact h1 (Or.inl ⟨hl.1.trans hfs.symm, hfe.symm ▸ hl.2⟩)
            · exact h2 (hfe.symm ▸ he)
    · -- ENCODE
      exact absurd hph henc
    · -- COMPLETE
      refine ⟨Or.inl ?_, ?_, fun _ => ⟨rfl, rfl⟩,
        fun hR _ => Phase.noConfusion hR⟩
      · simp [modalStep, hph]
      · simp [modalStep, hph]

set_option maxRecDepth 400000 in
/-- Witness for C4 at a concrete `RENDER`-phase state: the step never
reaches the `ENCODE` phase. -/
theorem modal_phase_machine_witness :
    (modalStep sampleModalState sampleScene samplePrefs .TIMER
      sampleDisk).state.phase ≠ Phase.ENCODE :=
  (modal_phase_machine sampleModalState sampleScene samplePrefs .TIMER
    sampleDisk (by decide)).2.1

/-- C8: every preset identifier parses to exactly the advertised width and
height, and for every mode the resolution block implements the spec-side
description: `PRESET` writes the preset dimensions, `CUSTOM` writes the
add-on properties, `SCENE` leaves `resolution_x`/`resolution_y` untouched,
and `resolution_percentage` is overwritten in every mode. -/
theorem resolution_mode_branching :
    ((RESOLUTION_PRESET_ITEMS.map fun it => (it.1, parsePresetResolution it.1)) =
      (specPresetDims.map fun it => (it.1, some (it.2.1, it.2.2)))) ∧
    (∀ (props : BPLProps) (render : RenderSettings),
      props.resolution_mode = "SCENE" ∨
        (props.resolution_mode = "PRESET" ∧
          props.resolution_preset ∈ RESOLUTION_PRESET_ITEMS.map Prod.fst) ∨
        props.resolution_mode = "CUSTOM" →
      applyResolutionSettings props render = applyResolutionSpec props render) := by
  refine ⟨by decide, ?_⟩
  intro props render h
  rcases h with hs | ⟨hp, hm⟩ | hc
  · simp [applyResolutionSettings, applyResolutionSpec, hs]
  · simp only [RESOLUTION_PRESET_ITEMS, List.map_cons, List.map_nil,
      List.mem_cons, List.not_mem_nil, or_false] at hm
    simp only [applyResolutionSettings, applyResolutionSpec, hp, if_pos]
    rcases hm with h | h | h | h | h | h | h | h | h | h | h | h <;>
      rw [h] <;> rfl
  · simp [applyResolutionSettings, applyResolutionSpec, hc]

/-- Witness for C8 at the HD1080p preset. -/
theorem resolution_mode_branching_witness :
    applyResolutionSettings { sampleProps with resolution_mode := "PRESET" }
        sampleRender
      = applyResolutionSpec { sampleProps with resolution_mode := "PRESET" }
        sampleRender :=
  resolution_mode_branching.2 _ _ (Or.inr (Or.inl ⟨rfl, by decide⟩))

end BasedPlayblast
